import Mathlib

/-!
Verification of the transport/protocol layer and device lifecycle of the
epd-waveshare e-paper driver (files `src/interface.rs`, `src/epd5in65f/mod.rs`,
`src/epd7in5_v2/mod.rs`).

The hardware-facing code is embedded shallowly: every pin write, pin read, SPI
transfer and delay is one *hardware operation*.  The environment `Env` decides,
per operation index, whether the operation succeeds and what level the busy
line reads; the state `St` records the trace of performed bus/pin events and
the number of operations attempted so far.  A computation is a function
`Env → St → R α × St`; `R` distinguishes normal return, a propagated fault
(`Error::SPIError` / `PinError` / `DelayError` in the source), the
`unimplemented!()` panic, and running out of polling fuel (the source's busy
loops are unbounded; fuel makes them total, `R.diverge` marking exhaustion).
-/

namespace EpdWaveshare

/-- One observable hardware event: a control-line edge, one `spi.try_write`
call with its payload, one delay, or one sample of the busy line. -/
inductive Ev where
  | csLow | csHigh | dcLow | dcHigh | rstLow | rstHigh
  | spi (bytes : List Nat)
  | delayed (ms : Nat)
  | readBusy (level : Bool)
  deriving DecidableEq, Repr

/-- The three error kinds of `crate::Error`. -/
inductive Fault where
  | spiErr | pinErr | delayErr
  deriving DecidableEq, Repr

/-- Result of running a computation: `ok`, a propagated fault, the
`unimplemented!()` panic, or polling-fuel exhaustion. -/
inductive R (α : Type) where
  | ok (a : α)
  | err (f : Fault)
  | unimpl
  | diverge
  deriving DecidableEq, Repr

/-- Map the returned value, keeping faults/panic/divergence. -/
def R.mapVal {α β : Type} (f : α → β) : R α → R β
  | .ok a => .ok (f a)
  | .err e => .err e
  | .unimpl => .unimpl
  | .diverge => .diverge

/-- The hardware environment: whether the host is a Linux target (the SPI
4096-byte chunking in `DisplayInterface::write` is under
`cfg!(target_os = "linux")`), the polling fuel, per-operation success, and the
busy-line level at each operation index. -/
structure Env where
  linux : Bool
  fuel : Nat
  ok : Nat → Bool
  busy : Nat → Bool

/-- Program state: the trace of performed hardware events and the count of
hardware operations attempted so far. -/
structure St where
  trace : List Ev
  k : Nat
  deriving DecidableEq, Repr

def St0 : St := ⟨[], 0⟩

/-- The embedding monad: environment plus state, with short-circuiting on
fault (`?` in the source), panic and divergence. -/
def M (α : Type) : Type := Env → St → R α × St

instance : Monad M where
  pure a := fun _ s => (R.ok a, s)
  bind m f := fun env s =>
    match m env s with
    | (R.ok a, s') => f a env s'
    | (R.err e, s') => (R.err e, s')
    | (R.unimpl, s') => (R.unimpl, s')
    | (R.diverge, s') => (R.diverge, s')

/-- A control-line write (`try_set_low` / `try_set_high` on cs/dc/rst):
consumes one operation index; on failure returns `Error::PinError`. -/
def pinOp (e : Ev) : M Unit := fun env s =>
  if env.ok s.k then (R.ok (), ⟨s.trace ++ [e], s.k + 1⟩)
  else (R.err Fault.pinErr, ⟨s.trace, s.k + 1⟩)

/-- One `spi.try_write` with payload `d`; on failure `Error::SPIError`. -/
def spiTryWrite (d : List Nat) : M Unit := fun env s =>
  if env.ok s.k then (R.ok (), ⟨s.trace ++ [Ev.spi d], s.k + 1⟩)
  else (R.err Fault.spiErr, ⟨s.trace, s.k + 1⟩)

/-- One `delay.try_delay_ms ms`; on failure `Error::DelayError`. -/
def delayMs (ms : Nat) : M Unit := fun env s =>
  if env.ok s.k then (R.ok (), ⟨s.trace ++ [Ev.delayed ms], s.k + 1⟩)
  else (R.err Fault.delayErr, ⟨s.trace, s.k + 1⟩)

/-- One read of the busy input line (`try_is_low` / `try_is_high`); returns
the line level (`true` = logical high); on failure `Error::PinError`. -/
def readBusyPin : M Bool := fun env s =>
  if env.ok s.k then
    (R.ok (env.busy s.k), ⟨s.trace ++ [Ev.readBusy (env.busy s.k)], s.k + 1⟩)
  else (R.err Fault.pinErr, ⟨s.trace, s.k + 1⟩)

/-- The compile-time `cfg!(target_os = "linux")` test. -/
def getLinux : M Bool := fun env s => (R.ok env.linux, s)

/-- `unimplemented!()`: panics before any hardware activity. -/
def notImpl {α : Type} : M α := fun _ s => (R.unimpl, s)

/-- Marker for an exhausted polling loop (the source loops without bound). -/
def outOfFuel {α : Type} : M α := fun _ s => (R.diverge, s)

/-- `let _ = <fallible call>;` — the result, fault included, is discarded and
execution continues (panic and divergence still abort). -/
def tryIgnore {α : Type} (m : M α) : M Unit := fun env s =>
  match m env s with
  | (R.ok _, s') => (R.ok (), s')
  | (R.err _, s') => (R.ok (), s')
  | (R.unimpl, s') => (R.unimpl, s')
  | (R.diverge, s') => (R.diverge, s')

/-- Recursion core of `slice::chunks`, structural in a fuel argument (the
list's length always suffices, since each step drops at least one element). -/
def chunksOfGo (n : Nat) : List Nat → Nat → List (List Nat)
  | [], _ => []
  | _ :: _, 0 => []
  | x :: xs, fuel + 1 =>
    ((x :: xs).take (n + 1)) :: chunksOfGo n ((x :: xs).drop (n + 1)) fuel

/-- `slice::chunks (n+1)`: consecutive chunks of size `n+1` (the last one may
be shorter, an empty slice yields no chunks). -/
def chunksOf (n : Nat) (l : List Nat) : List (List Nat) :=
  chunksOfGo n l l.length

namespace DisplayInterface

/-- The chunk loop body of `DisplayInterface::write`. -/
def writeChunks : List (List Nat) → M Unit
  | [] => pure ()
  | c :: cs => do
    spiTryWrite c
    writeChunks cs

/-- `DisplayInterface::write`: cs low, the SPI transfer (chunked to 4096
bytes on Linux targets), cs high.  A fault skips the trailing cs-high, as the
source's `?` does. -/
def write (d : List Nat) : M Unit := do
  pinOp Ev.csLow
  if (← getLinux) then writeChunks (chunksOf 4095 d) else spiTryWrite d
  pinOp Ev.csHigh

/-- `DisplayInterface::cmd`: dc low, then write the one opcode byte. -/
def cmd (c : Nat) : M Unit := do
  pinOp Ev.dcLow
  write [c]

/-- `DisplayInterface::data`: dc high, then write the payload. -/
def data (d : List Nat) : M Unit := do
  pinOp Ev.dcHigh
  write d

/-- `DisplayInterface::cmd_with_data`. -/
def cmd_with_data (c : Nat) (d : List Nat) : M Unit := do
  cmd c
  data d

/-- The repetition loop of `DisplayInterface::data_x_times`. -/
def writeValTimes (val : Nat) : Nat → M Unit
  | 0 => pure ()
  | n + 1 => do
    write [val]
    writeValTimes val n

/-- `DisplayInterface::data_x_times`: dc high, then `repetitions` separate
one-byte writes. -/
def data_x_times (val : Nat) (reps : Nat) : M Unit := do
  pinOp Ev.dcHigh
  writeValTimes val reps

/-- `DisplayInterface::is_busy`: one busy-line read, interpreted through the
caller-supplied polarity (`(is_busy_low && low) || (!is_busy_low && high)`). -/
def is_busy (busyLow : Bool) : M Bool := do
  let lvl ← readBusyPin
  pure ((busyLow && !lvl) || (!busyLow && lvl))

/-- `DisplayInterface::wait_until_idle`, made total by fuel. -/
def wait_until_idle_fueled (busyLow : Bool) : Nat → M Unit
  | 0 => outOfFuel
  | fuel + 1 => do
    let b ← is_busy busyLow
    if b then wait_until_idle_fueled busyLow fuel else pure ()

/-- `DisplayInterface::wait_until_idle`, polling with the environment's fuel. -/
def wait_until_idle (busyLow : Bool) : M Unit := fun env s =>
  wait_until_idle_fueled busyLow env.fuel env s

/-- `DisplayInterface::reset`: rst high, 200 ms, rst low, the model-supplied
pulse duration, rst high, 200 ms. -/
def reset (duration : Nat) : M Unit := do
  pinOp Ev.rstHigh
  delayMs 200
  pinOp Ev.rstLow
  delayMs duration
  pinOp Ev.rstHigh
  delayMs 200

end DisplayInterface

/-- Modelled from the spec: the eight-color palette type `OctColor`
(`src/color.rs` is not among the provided sources).  The spec describes a
4-bit indexed palette packed two pixels per byte; palette values are the
indices 0..7, so `OctColor` is `Fin 8` with named black/white indices. -/
abbrev OctColor := Fin 8

def OctColor.black : OctColor := 0

def OctColor.white : OctColor := 1

/-- Modelled from the spec: `OctColor::colors_byte` packs two palette indices
into one byte, the high nibble holding the first pixel. -/
def OctColor.colors_byte (a b : OctColor) : Nat := 16 * a.val + b.val

/-- Modelled from the spec: the 1-bit monochrome color type `Color`
(`src/color.rs` is not among the provided sources): black or white. -/
inductive Color where
  | black
  | white
  deriving DecidableEq, Repr

/-- Modelled from the spec: the solid-fill byte of a monochrome color under
the MSB-first one-bit-per-pixel packing — all bits set for white, cleared for
black; the two colors have distinct fill bytes. -/
def Color.get_byte_value : Color → Nat
  | .black => 0x00
  | .white => 0xFF

/-- Modelled from the spec: the waveform-table selector passed to `set_lut`
(`src/traits.rs` is not among the provided sources); its value is irrelevant
here because neither illustrated model implements `set_lut`. -/
inductive RefreshLut where
  | full
  | quick
  deriving DecidableEq, Repr

/-- Modelled from the spec: the epd5in65f opcode table
(`src/epd5in65f/command.rs` is not among the provided sources).  The spec
treats opcodes as opaque distinct single-byte identifiers, so the commands the
driver emits are an enumeration with distinct abstract addresses. -/
inductive Cmd5 where
  | panelSetting | powerSetting | powerOffSequenceSetting | boosterSoftStart
  | pllControl | temperatureSensor | vcomAndDataIntervalSetting | tconSetting
  | tconResolution | flashMode | powerOn | powerOff | displayRefresh
  | dataStartTransmission1 | deepSleep
  deriving DecidableEq, Repr

def Cmd5.address : Cmd5 → Nat
  | .panelSetting => 0
  | .powerSetting => 1
  | .powerOffSequenceSetting => 2
  | .boosterSoftStart => 3
  | .pllControl => 4
  | .temperatureSensor => 5
  | .vcomAndDataIntervalSetting => 6
  | .tconSetting => 7
  | .tconResolution => 8
  | .flashMode => 9
  | .powerOn => 10
  | .powerOff => 11
  | .displayRefresh => 12
  | .dataStartTransmission1 => 13
  | .deepSleep => 14

/-- Modelled from the spec: the epd7in5_v2 opcode table
(`src/epd7in5_v2/command.rs` is not among the provided sources), as an
enumeration with distinct abstract addresses. -/
inductive Cmd7 where
  | boosterSoftStart | powerSetting | powerOn | panelSetting | pllControl
  | tconResolution | dualSpi | tconSetting | vcomAndDataIntervalSetting
  | powerOff | deepSleep | dataStartTransmission1 | dataStartTransmission2
  | displayRefresh | getStatus
  deriving DecidableEq, Repr

def Cmd7.address : Cmd7 → Nat
  | .boosterSoftStart => 0
  | .powerSetting => 1
  | .powerOn => 2
  | .panelSetting => 3
  | .pllControl => 4
  | .tconResolution => 5
  | .dualSpi => 6
  | .tconSetting => 7
  | .vcomAndDataIntervalSetting => 8
  | .powerOff => 9
  | .deepSleep => 10
  | .dataStartTransmission1 => 11
  | .dataStartTransmission2 => 12
  | .displayRefresh => 13
  | .getStatus => 14

namespace Epd5in65f

def WIDTH : Nat := 600

def HEIGHT : Nat := 448

def DEFAULT_BACKGROUND_COLOR : OctColor := OctColor.white

def IS_BUSY_LOW : Bool := true

def command (c : Cmd5) : M Unit := DisplayInterface.cmd c.address

def send_data (d : List Nat) : M Unit := DisplayInterface.data d

def cmd_with_data (c : Cmd5) (d : List Nat) : M Unit :=
  DisplayInterface.cmd_with_data c.address d

/-- `wait_busy_high`: `let _ = self.interface.wait_until_idle(true);` — the
result, faults included, is discarded. -/
def wait_busy_high : M Unit := tryIgnore (DisplayInterface.wait_until_idle true)

/-- `wait_busy_low`: `let _ = self.interface.wait_until_idle(false);`. -/
def wait_busy_low : M Unit := tryIgnore (DisplayInterface.wait_until_idle false)

/-- `send_resolution`: the resolution opcode, then width and height as two
big-endian 16-bit fields sent one byte at a time (`as u8` casts). -/
def send_resolution : M Unit := do
  command Cmd5.tconResolution
  send_data [WIDTH / 256 % 256]
  send_data [WIDTH % 256]
  send_data [HEIGHT / 256 % 256]
  send_data [HEIGHT % 256]

/-- `InternalWiAdditions::init` for Epd5in65f. -/
def init : M Unit := do
  DisplayInterface.reset 2
  cmd_with_data Cmd5.panelSetting [0xEF, 0x08]
  cmd_with_data Cmd5.powerSetting [0x37, 0x00, 0x23, 0x23]
  cmd_with_data Cmd5.powerOffSequenceSetting [0x00]
  cmd_with_data Cmd5.boosterSoftStart [0xC7, 0xC7, 0x1D]
  cmd_with_data Cmd5.pllControl [0x3C]
  cmd_with_data Cmd5.temperatureSensor [0x00]
  cmd_with_data Cmd5.vcomAndDataIntervalSetting [0x37]
  cmd_with_data Cmd5.tconSetting [0x22]
  send_resolution
  cmd_with_data Cmd5.flashMode [0xAA]
  delayMs 100
  cmd_with_data Cmd5.vcomAndDataIntervalSetting [0x37]

/-- `WaveshareDisplay::new`: init, with the default background color recorded
as the driver's color field (returned here as the computation's value). -/
def new : M OctColor := do
  init
  pure DEFAULT_BACKGROUND_COLOR

/-- `wake_up`: re-runs `init`; the stored color (passed in) is untouched. -/
def wake_up (color : OctColor) : M OctColor := do
  init
  pure color

/-- `sleep`: the deep-sleep opcode with its magic byte. -/
def sleep (color : OctColor) : M OctColor := do
  cmd_with_data Cmd5.deepSleep [0xA5]
  pure color

/-- `update_frame`. -/
def update_frame (buffer : List Nat) : M Unit := do
  wait_busy_high
  send_resolution
  cmd_with_data Cmd5.dataStartTransmission1 buffer

/-- `update_partial_frame`: `unimplemented!()`. -/
def update_partial_frame (_buffer : List Nat) (_x _y _width _height : Nat) :
    M Unit := notImpl

/-- `display_frame`. -/
def display_frame : M Unit := do
  wait_busy_high
  command Cmd5.powerOn
  wait_busy_high
  command Cmd5.displayRefresh
  wait_busy_high
  command Cmd5.powerOff
  wait_busy_low

/-- `update_and_display_frame`. -/
def update_and_display_frame (buffer : List Nat) : M Unit := do
  update_frame buffer
  display_frame

/-- `clear_frame`: fill byte from the stored background color, then the fill
of `WIDTH * HEIGHT / 2` bytes under DataStartTransmission1, then
`display_frame`. -/
def clear_frame (color : OctColor) : M Unit := do
  wait_busy_high
  send_resolution
  command Cmd5.dataStartTransmission1
  DisplayInterface.data_x_times (OctColor.colors_byte color color) (WIDTH * HEIGHT / 2)
  display_frame

/-- `set_background_color`: pure field store. -/
def set_background_color (_old color : OctColor) : OctColor := color

/-- `background_color`: pure field read. -/
def background_color (color : OctColor) : OctColor := color

def width : Nat := WIDTH

def height : Nat := HEIGHT

/-- `set_lut`: `unimplemented!()`. -/
def set_lut (_refresh_rate : Option RefreshLut) : M Unit := notImpl

/-- Driver-level `is_busy`: the transport query at the model's polarity. -/
def is_busy : M Bool := DisplayInterface.is_busy IS_BUSY_LOW

end Epd5in65f

namespace Epd7in5

def WIDTH : Nat := 800

def HEIGHT : Nat := 480

def DEFAULT_BACKGROUND_COLOR : Color := Color.white

def IS_BUSY_LOW : Bool := true

def command (c : Cmd7) : M Unit := DisplayInterface.cmd c.address

def send_data (d : List Nat) : M Unit := DisplayInterface.data d

def cmd_with_data (c : Cmd7) (d : List Nat) : M Unit :=
  DisplayInterface.cmd_with_data c.address d

/-- The epd7in5_v2 busy loop, made total by fuel: while busy, re-issue the
GetStatus command and delay 20 ms, then sample again. -/
def wait_until_idle_fueled : Nat → M Unit
  | 0 => outOfFuel
  | fuel + 1 => do
    let b ← DisplayInterface.is_busy IS_BUSY_LOW
    if b then do
      DisplayInterface.cmd Cmd7.getStatus.address
      delayMs 20
      wait_until_idle_fueled fuel
    else pure ()

/-- `Epd7in5::wait_until_idle`, polling with the environment's fuel. -/
def wait_until_idle : M Unit := fun env s =>
  wait_until_idle_fueled env.fuel env s

/-- `send_resolution` (identical in shape to the 5in65f one). -/
def send_resolution : M Unit := do
  command Cmd7.tconResolution
  send_data [WIDTH / 256 % 256]
  send_data [WIDTH % 256]
  send_data [HEIGHT / 256 % 256]
  send_data [HEIGHT % 256]

/-- `InternalWiAdditions::init` for Epd7in5 (V2). -/
def init : M Unit := do
  DisplayInterface.reset 2
  cmd_with_data Cmd7.boosterSoftStart [0x17, 0x17, 0x27, 0x17]
  cmd_with_data Cmd7.powerSetting [0x07, 0x17, 0x3F, 0x3F]
  command Cmd7.powerOn
  wait_until_idle
  cmd_with_data Cmd7.panelSetting [0x1F]
  cmd_with_data Cmd7.pllControl [0x06]
  cmd_with_data Cmd7.tconResolution [0x03, 0x20, 0x01, 0xE0]
  cmd_with_data Cmd7.dualSpi [0x00]
  cmd_with_data Cmd7.tconSetting [0x22]
  cmd_with_data Cmd7.vcomAndDataIntervalSetting [0x10, 0x07]
  wait_until_idle

/-- `WaveshareDisplay::new`. -/
def new : M Color := do
  init
  pure DEFAULT_BACKGROUND_COLOR

/-- `wake_up`: re-runs `init`; the stored color (passed in) is untouched. -/
def wake_up (color : Color) : M Color := do
  init
  pure color

/-- `sleep`: wait, power off, wait, deep sleep. -/
def sleep (color : Color) : M Color := do
  wait_until_idle
  command Cmd7.powerOff
  wait_until_idle
  cmd_with_data Cmd7.deepSleep [0xA5]
  pure color

/-- `update_frame`. -/
def update_frame (buffer : List Nat) : M Unit := do
  wait_until_idle
  cmd_with_data Cmd7.dataStartTransmission2 buffer

/-- `update_partial_frame`: `unimplemented!()`. -/
def update_partial_frame (_buffer : List Nat) (_x _y _width _height : Nat) :
    M Unit := notImpl

/-- `display_frame`: wait, then the refresh opcode. -/
def display_frame : M Unit := do
  wait_until_idle
  command Cmd7.displayRefresh

/-- `update_and_display_frame`: update, then the refresh opcode directly (the
source does not call `display_frame` here, so no wait precedes the refresh). -/
def update_and_display_frame (buffer : List Nat) : M Unit := do
  update_frame buffer
  command Cmd7.displayRefresh

/-- `clear_frame`: wait, resolution, 0x00-fill of both transmission planes
(`WIDTH * HEIGHT / 8` bytes each, the stored color unused by the source),
then the refresh opcode directly. -/
def clear_frame (_color : Color) : M Unit := do
  wait_until_idle
  send_resolution
  command Cmd7.dataStartTransmission1
  DisplayInterface.data_x_times 0x00 (WIDTH * HEIGHT / 8)
  command Cmd7.dataStartTransmission2
  DisplayInterface.data_x_times 0x00 (WIDTH * HEIGHT / 8)
  command Cmd7.displayRefresh

/-- `set_background_color`: pure field store. -/
def set_background_color (_old color : Color) : Color := color

/-- `background_color`: pure field read. -/
def background_color (color : Color) : Color := color

def width : Nat := WIDTH

def height : Nat := HEIGHT

/-- `set_lut`: `unimplemented!()`. -/
def set_lut (_refresh_rate : Option RefreshLut) : M Unit := notImpl

/-- Driver-level `is_busy`: the transport query at the model's polarity. -/
def is_busy : M Bool := DisplayInterface.is_busy IS_BUSY_LOW

end Epd7in5

/-! ### Trace shapes

Named event-list builders used to state what each operation puts on the bus. -/

/-- The SPI payload sequence a single `write` produces: chunked on Linux
targets, one unchunked transfer otherwise. -/
def spiChunks (lx : Bool) (d : List Nat) : List (List Nat) :=
  if lx then chunksOf 4095 d else [d]

/-- Events of one `write d`: one cs assertion around all chunks. -/
def writeEvs (lx : Bool) (d : List Nat) : List Ev :=
  Ev.csLow :: ((spiChunks lx d).map Ev.spi ++ [Ev.csHigh])

/-- Events of one `cmd c` (a one-byte payload is a single chunk on every
target). -/
def cmdEvs (c : Nat) : List Ev := [Ev.dcLow, Ev.csLow, Ev.spi [c], Ev.csHigh]

/-- Events of one `data [b]` with a one-byte payload. -/
def dataEvs1 (b : Nat) : List Ev := [Ev.dcHigh, Ev.csLow, Ev.spi [b], Ev.csHigh]

/-- Events of one `cmd_with_data c d` whose payload is nonempty and at most
4096 bytes (a single chunk on every target). -/
def cwdEvs (c : Nat) (d : List Nat) : List Ev :=
  cmdEvs c ++ [Ev.dcHigh, Ev.csLow, Ev.spi d, Ev.csHigh]

/-- Events of the repetition loop of `data_x_times`: each one-byte transfer
individually framed by its own cs assert/deassert. -/
def fillEvs (val : Nat) : Nat → List Ev
  | 0 => []
  | n + 1 => Ev.csLow :: Ev.spi [val] :: Ev.csHigh :: fillEvs val n

/-- Events of `send_resolution` with resolution opcode `a`: width and height
as two big-endian 16-bit fields, one byte per `data` call. -/
def resEvs (a w h : Nat) : List Ev :=
  cmdEvs a ++ dataEvs1 (w / 256 % 256) ++ dataEvs1 (w % 256) ++
    dataEvs1 (h / 256 % 256) ++ dataEvs1 (h % 256)

/-- How `is_busy` interprets the level read at operation index `i` under the
polarity `busyLow`. -/
def busyRead (env : Env) (busyLow : Bool) (i : Nat) : Bool :=
  (busyLow && !(env.busy i)) || (!busyLow && env.busy i)

/-- Events of `n` consecutive busy-line samples starting at operation index
`start`. -/
def pollEvs (env : Env) (start : Nat) : Nat → List Ev
  | 0 => []
  | n + 1 => Ev.readBusy (env.busy start) :: pollEvs env (start + 1) n

/-- The busy line, polled under polarity `busyLow` from operation index
`start`, reads busy for `n` samples and not-busy at the `n`-th. -/
def stopsAt (env : Env) (busyLow : Bool) (start n : Nat) : Prop :=
  (∀ i, i < n → busyRead env busyLow (start + i) = true) ∧
    busyRead env busyLow (start + n) = false

/-- Events of the epd7in5_v2 busy loop with `n` busy iterations starting at
operation index `start`: each busy sample is followed by a GetStatus command
and a 20 ms delay (6 operations per iteration), the final sample exits. -/
def poll7Evs (env : Env) (start : Nat) : Nat → List Ev
  | 0 => [Ev.readBusy (env.busy start)]
  | n + 1 =>
    Ev.readBusy (env.busy start) ::
      (cmdEvs Cmd7.getStatus.address ++ Ev.delayed 20 :: poll7Evs env (start + 6) n)

/-- The epd7in5_v2 loop exit condition: the line reads low (busy, since the
model is low-active) at the first `n` samples — taken 6 operations apart —
and high (idle) at the `n`-th. -/
def stops7 (env : Env) (start n : Nat) : Prop :=
  (∀ i, i < n → env.busy (start + 6 * i) = false) ∧ env.busy (start + 6 * n) = true

instance (env : Env) (busyLow : Bool) (start n : Nat) :
    Decidable (stopsAt env busyLow start n) := by
  unfold stopsAt
  infer_instance

instance (env : Env) (start n : Nat) : Decidable (stops7 env start n) := by
  unfold stops7
  infer_instance

/-- Number of chip-select assertions in a trace. -/
def countCsLow : List Ev → Nat
  | [] => 0
  | Ev.csLow :: es => countCsLow es + 1
  | _ :: es => countCsLow es

/-- The data/command-select level after a list of events, starting from
`inCmd` (`true` = command mode, dc low). -/
def dcAfter (inCmd : Bool) : List Ev → Bool
  | [] => inCmd
  | Ev.dcLow :: es => dcAfter true es
  | Ev.dcHigh :: es => dcAfter false es
  | _ :: es => dcAfter inCmd es

/-- The bytes a trace transfers while the data/command-select line is in
command mode: the opcode stream the panel decodes. -/
def opcodesGo (inCmd : Bool) : List Ev → List Nat
  | [] => []
  | Ev.dcLow :: es => opcodesGo true es
  | Ev.dcHigh :: es => opcodesGo false es
  | Ev.spi bs :: es => if inCmd then bs ++ opcodesGo inCmd es else opcodesGo inCmd es
  | _ :: es => opcodesGo inCmd es

/-- The opcode stream of a trace (dc starts high: data mode). -/
def opcodesOf (es : List Ev) : List Nat := opcodesGo false es

/-! ### Fail-fast predicates

`OkSound m`: a normal return means every hardware operation the run attempted
succeeded (no fault was swallowed), each appending exactly one event.
`FaultStops m`: a fault return is the *first* failing hardware operation — all
earlier ones succeeded — and the run stops right there: the failing operation
appends nothing and nothing runs after it. -/

def OkSound {α : Type} (m : M α) : Prop :=
  ∀ env s a s', m env s = (R.ok a, s') →
    s.k ≤ s'.k ∧ (∀ i, s.k ≤ i → i < s'.k → env.ok i = true) ∧
      s'.trace.length + s.k = s.trace.length + s'.k ∧ s.trace <+: s'.trace

def FaultStops {α : Type} (m : M α) : Prop :=
  ∀ env s f s', m env s = (R.err f, s') →
    s.k < s'.k ∧ env.ok (s'.k - 1) = false ∧
      (∀ i, s.k ≤ i → i < s'.k - 1 → env.ok i = true) ∧
      s'.trace.length + s.k + 1 = s.trace.length + s'.k ∧ s.trace <+: s'.trace

def FailFast {α : Type} (m : M α) : Prop := OkSound m ∧ FaultStops m

/-! ### Concrete environments for witnesses and counterexamples -/

/-- Faultless Linux host whose busy line always reads high. -/
def envHigh : Env := ⟨true, 8, fun _ => true, fun _ => true⟩

/-- Faultless non-Linux host (no SPI transfer-size ceiling). -/
def envNL : Env := ⟨false, 8, fun _ => true, fun _ => true⟩

/-- Faultless host for a fresh `Epd5in65f.display_frame` run: the busy line
reads high (idle for the low-active waits) until sample 15, where it reads
low so the final opposite-polarity wait also exits at once. -/
def envD5 : Env := ⟨true, 8, fun _ => true, fun n => decide (n < 15)⟩

/-- Host for a fresh `Epd5in65f.display_frame` run whose very first hardware
operation — the busy-line sample of `wait_busy_high` — fails. -/
def envF5 : Env := ⟨true, 8, fun n => decide (n ≠ 0), fun n => decide (n < 15)⟩

/-- Faultless host for a fresh `Epd5in65f.clear_frame` run: the busy line
reads high everywhere except at sample 403241, the final opposite-polarity
wait of the embedded `display_frame`. -/
def envC5 : Env := ⟨true, 8, fun _ => true, fun n => decide (n ≠ 403241)⟩

/-- A payload one byte over the Linux transfer ceiling. -/
def bigPayload : List Nat := List.replicate 4097 0

/-- Events of one `reset` with pulse duration `dur`. -/
def resetEvs (dur : Nat) : List Ev :=
  [Ev.rstHigh, Ev.delayed 200, Ev.rstLow, Ev.delayed dur, Ev.rstHigh, Ev.delayed 200]

/-- Events of `Epd7in5.sleep` on a host whose busy line always reads high
(every wait exits at its first sample). -/
def sleep7IdleEvs : List Ev :=
  [Ev.readBusy true] ++ cmdEvs Cmd7.powerOff.address ++ [Ev.readBusy true] ++
    cwdEvs Cmd7.deepSleep.address [0xA5]

/-- Events of `Epd7in5.init` on a host whose busy line always reads high
(76 hardware operations, both waits exit at their first sample). -/
def init7IdleEvs : List Ev :=
  resetEvs 2 ++ cwdEvs Cmd7.boosterSoftStart.address [0x17, 0x17, 0x27, 0x17] ++
    cwdEvs Cmd7.powerSetting.address [0x07, 0x17, 0x3F, 0x3F] ++
    cmdEvs Cmd7.powerOn.address ++ [Ev.readBusy true] ++
    cwdEvs Cmd7.panelSetting.address [0x1F] ++
    cwdEvs Cmd7.pllControl.address [0x06] ++
    cwdEvs Cmd7.tconResolution.address [0x03, 0x20, 0x01, 0xE0] ++
    cwdEvs Cmd7.dualSpi.address [0x00] ++
    cwdEvs Cmd7.tconSetting.address [0x22] ++
    cwdEvs Cmd7.vcomAndDataIntervalSetting.address [0x10, 0x07] ++
    [Ev.readBusy true]

/-- Events of `Epd5in65f.init` (107 hardware operations, no busy polling). -/
def init5Evs : List Ev :=
  resetEvs 2 ++ cwdEvs Cmd5.panelSetting.address [0xEF, 0x08] ++
    cwdEvs Cmd5.powerSetting.address [0x37, 0x00, 0x23, 0x23] ++
    cwdEvs Cmd5.powerOffSequenceSetting.address [0x00] ++
    cwdEvs Cmd5.boosterSoftStart.address [0xC7, 0xC7, 0x1D] ++
    cwdEvs Cmd5.pllControl.address [0x3C] ++
    cwdEvs Cmd5.temperatureSensor.address [0x00] ++
    cwdEvs Cmd5.vcomAndDataIntervalSetting.address [0x37] ++
    cwdEvs Cmd5.tconSetting.address [0x22] ++
    resEvs Cmd5.tconResolution.address Epd5in65f.WIDTH Epd5in65f.HEIGHT ++
    cwdEvs Cmd5.flashMode.address [0xAA] ++ [Ev.delayed 100] ++
    cwdEvs Cmd5.vcomAndDataIntervalSetting.address [0x37]

/-! ## Run lemmas

Characterizations of each operation's result and trace.  `hok` says the
environment injects no fault. -/

theorem pure_run {α : Type} (a : α) (env : Env) (s : St) :
    (pure a : M α) env s = (R.ok a, s) := rfl

theorem bind_def {α β : Type} (m : M α) (f : α → M β) (env : Env) (s : St) :
    (m >>= f) env s =
      match m env s with
      | (R.ok a, s') => f a env s'
      | (R.err e, s') => (R.err e, s')
      | (R.unimpl, s') => (R.unimpl, s')
      | (R.diverge, s') => (R.diverge, s') := rfl

theorem bind_ok {α β : Type} {m : M α} {f : α → M β} {env : Env} {s s' : St}
    {a : α} (h : m env s = (R.ok a, s')) : (m >>= f) env s = f a env s' := by
  rw [bind_def, h]

theorem bind_err {α β : Type} {m : M α} {f : α → M β} {env : Env} {s s' : St}
    {e : Fault} (h : m env s = (R.err e, s')) :
    (m >>= f) env s = (R.err e, s') := by
  rw [bind_def, h]

theorem pinOp_run {env : Env} {s : St} (e : Ev) (h : env.ok s.k = true) :
    pinOp e env s = (R.ok (), ⟨s.trace ++ [e], s.k + 1⟩) := by
  simp [pinOp, h]

theorem spiTryWrite_run {env : Env} {s : St} (d : List Nat)
    (h : env.ok s.k = true) :
    spiTryWrite d env s = (R.ok (), ⟨s.trace ++ [Ev.spi d], s.k + 1⟩) := by
  simp [spiTryWrite, h]

theorem delayMs_run {env : Env} {s : St} (ms : Nat) (h : env.ok s.k = true) :
    delayMs ms env s = (R.ok (), ⟨s.trace ++ [Ev.delayed ms], s.k + 1⟩) := by
  simp [delayMs, h]

theorem readBusyPin_run {env : Env} {s : St} (h : env.ok s.k = true) :
    readBusyPin env s =
      (R.ok (env.busy s.k), ⟨s.trace ++ [Ev.readBusy (env.busy s.k)], s.k + 1⟩) := by
  simp [readBusyPin, h]

theorem getLinux_run (env : Env) (s : St) :
    getLinux env s = (R.ok env.linux, s) := rfl

theorem tryIgnore_of_ok {α : Type} {m : M α} {env : Env} {s s' : St} {a : α}
    (h : m env s = (R.ok a, s')) : tryIgnore m env s = (R.ok (), s') := by
  simp [tryIgnore, h]

theorem tryIgnore_of_err {α : Type} {m : M α} {env : Env} {s s' : St} {e : Fault}
    (h : m env s = (R.err e, s')) : tryIgnore m env s = (R.ok (), s') := by
  simp [tryIgnore, h]

theorem chunksOfGo_flatten (n : Nat) :
    ∀ (fuel : Nat) (l : List Nat), l.length ≤ fuel →
      (chunksOfGo n l fuel).flatten = l := by
  intro fuel
  induction fuel with
  | zero =>
    intro l h
    match l with
    | [] => simp [chunksOfGo]
  | succ fuel ih =>
    intro l h
    match l with
    | [] => simp [chunksOfGo]
    | x :: xs =>
      rw [chunksOfGo, List.flatten_cons,
        ih ((x :: xs).drop (n + 1)) (by simp [List.length_drop] at h ⊢; omega),
        List.take_append_drop]

/-- Reassembling the chunks gives back the original byte sequence. -/
theorem chunksOf_join (n : Nat) (l : List Nat) : (chunksOf n l).flatten = l :=
  chunksOfGo_flatten n l.length l le_rfl

theorem chunksOfGo_mem (n : Nat) :
    ∀ (fuel : Nat) (l : List Nat), l.length ≤ fuel →
      ∀ c ∈ chunksOfGo n l fuel, c.length ≤ n + 1 ∧ c ≠ [] := by
  intro fuel
  induction fuel with
  | zero =>
    intro l h c hc
    match l with
    | [] => simp [chunksOfGo] at hc
  | succ fuel ih =>
    intro l h c hc
    match l with
    | [] => simp [chunksOfGo] at hc
    | x :: xs =>
      rw [chunksOfGo] at hc
      rcases List.mem_cons.1 hc with rfl | hc
      · exact ⟨by simp [List.length_take], by simp [List.take_cons]⟩
      · exact ih _ (by simp [List.length_drop] at h ⊢; omega) _ hc

/-- Every chunk is nonempty and no larger than `n + 1` bytes. -/
theorem chunksOf_mem (n : Nat) (l : List Nat) :
    ∀ c ∈ chunksOf n l, c.length ≤ n + 1 ∧ c ≠ [] :=
  chunksOfGo_mem n l.length l le_rfl

theorem chunksOfGo_nil (n fuel : Nat) : chunksOfGo n [] fuel = [] := by
  cases fuel <;> rfl

/-- A nonempty sequence within the ceiling is a single chunk. -/
theorem chunksOf_small {n : Nat} {l : List Nat} (h0 : l ≠ [])
    (h1 : l.length ≤ n + 1) : chunksOf n l = [l] := by
  match l with
  | x :: xs =>
    show chunksOfGo n (x :: xs) (xs.length + 1) = [x :: xs]
    rw [chunksOfGo, List.take_of_length_le h1, List.drop_eq_nil_of_le h1,
      chunksOfGo_nil]

theorem spiChunks_join (lx : Bool) (d : List Nat) : (spiChunks lx d).flatten = d := by
  cases lx <;> simp [spiChunks, chunksOf_join]

theorem spiChunks_small {d : List Nat} (lx : Bool) (h0 : d ≠ [])
    (h1 : d.length ≤ 4096) : spiChunks lx d = [d] := by
  cases lx <;> simp [spiChunks, chunksOf_small h0 (by omega : d.length ≤ 4095 + 1)]

theorem writeChunks_run {env : Env} (hok : ∀ n, env.ok n = true) :
    ∀ (cs : List (List Nat)) (s : St),
      DisplayInterface.writeChunks cs env s =
        (R.ok (), ⟨s.trace ++ cs.map Ev.spi, s.k + cs.length⟩) := by
  intro cs
  induction cs with
  | nil => intro s; simp [DisplayInterface.writeChunks, pure_run]
  | cons c cs ih =>
    intro s
    rw [DisplayInterface.writeChunks, bind_ok (spiTryWrite_run c (hok s.k)), ih]
    simp [St.mk.injEq, List.append_assoc]
    omega

theorem write_run {env : Env} (hok : ∀ n, env.ok n = true) (d : List Nat)
    (s : St) :
    DisplayInterface.write d env s =
      (R.ok (), ⟨s.trace ++ writeEvs env.linux d,
        s.k + (spiChunks env.linux d).length + 2⟩) := by
  rw [DisplayInterface.write, bind_ok (pinOp_run Ev.csLow (hok _)),
    bind_ok (getLinux_run env _)]
  cases hl : env.linux with
  | true =>
    rw [if_pos rfl, bind_ok (writeChunks_run hok _ _)]
    refine (pinOp_run Ev.csHigh (hok _)).trans ?_
    simp [St.mk.injEq, writeEvs, spiChunks, List.append_assoc]
    try omega
  | false =>
    rw [if_neg (by simp), bind_ok (spiTryWrite_run d (hok _))]
    refine (pinOp_run Ev.csHigh (hok _)).trans ?_
    simp [St.mk.injEq, writeEvs, spiChunks, List.append_assoc]
    try omega

theorem write1_run {env : Env} (hok : ∀ n, env.ok n = true) (b : Nat) (s : St) :
    DisplayInterface.write [b] env s =
      (R.ok (), ⟨s.trace ++ [Ev.csLow, Ev.spi [b], Ev.csHigh], s.k + 3⟩) := by
  rw [write_run hok [b] s, spiChunks_small env.linux (by simp) (by simp)]
  simp [writeEvs, spiChunks_small env.linux (List.cons_ne_nil b []) (by simp)]

theorem cmd_run {env : Env} (hok : ∀ n, env.ok n = true) (c : Nat) (s : St) :
    DisplayInterface.cmd c env s =
      (R.ok (), ⟨s.trace ++ cmdEvs c, s.k + 4⟩) := by
  rw [DisplayInterface.cmd, bind_ok (pinOp_run Ev.dcLow (hok _)), write1_run hok]
  simp [St.mk.injEq, cmdEvs, List.append_assoc]
  try omega

theorem data_run {env : Env} (hok : ∀ n, env.ok n = true) (d : List Nat)
    (s : St) :
    DisplayInterface.data d env s =
      (R.ok (), ⟨s.trace ++ Ev.dcHigh :: writeEvs env.linux d,
        s.k + (spiChunks env.linux d).length + 3⟩) := by
  rw [DisplayInterface.data, bind_ok (pinOp_run Ev.dcHigh (hok _)), write_run hok]
  simp [St.mk.injEq, List.append_assoc]
  try omega

theorem data1_run {env : Env} (hok : ∀ n, env.ok n = true) (b : Nat) (s : St) :
    DisplayInterface.data [b] env s =
      (R.ok (), ⟨s.trace ++ dataEvs1 b, s.k + 4⟩) := by
  rw [DisplayInterface.data, bind_ok (pinOp_run Ev.dcHigh (hok _)), write1_run hok]
  simp [St.mk.injEq, dataEvs1, List.append_assoc]
  try omega

theorem dataSmall_run {env : Env} (hok : ∀ n, env.ok n = true) {d : List Nat}
    (h0 : d ≠ []) (h1 : d.length ≤ 4096) (s : St) :
    DisplayInterface.data d env s =
      (R.ok (), ⟨s.trace ++ [Ev.dcHigh, Ev.csLow, Ev.spi d, Ev.csHigh],
        s.k + 4⟩) := by
  rw [data_run hok d s, spiChunks_small env.linux h0 h1]
  simp [writeEvs, spiChunks_small env.linux h0 h1]

theorem cwd_run {env : Env} (hok : ∀ n, env.ok n = true) (c : Nat)
    {d : List Nat} (h0 : d ≠ []) (h1 : d.length ≤ 4096) (s : St) :
    DisplayInterface.cmd_with_data c d env s =
      (R.ok (), ⟨s.trace ++ cwdEvs c d, s.k + 8⟩) := by
  rw [DisplayInterface.cmd_with_data, bind_ok (cmd_run hok c s),
    dataSmall_run hok h0 h1]
  simp [St.mk.injEq, cwdEvs, List.append_assoc]
  try omega

theorem cwdBuf_run {env : Env} (hok : ∀ n, env.ok n = true) (c : Nat)
    (d : List Nat) (s : St) :
    DisplayInterface.cmd_with_data c d env s =
      (R.ok (), ⟨s.trace ++ cmdEvs c ++ Ev.dcHigh :: writeEvs env.linux d,
        s.k + (spiChunks env.linux d).length + 7⟩) := by
  rw [DisplayInterface.cmd_with_data, bind_ok (cmd_run hok c s), data_run hok]
  simp [St.mk.injEq, List.append_assoc]
  try omega

theorem writeValTimes_run {env : Env} (hok : ∀ n, env.ok n = true) (val : Nat) :
    ∀ (n : Nat) (s : St),
      DisplayInterface.writeValTimes val n env s =
        (R.ok (), ⟨s.trace ++ fillEvs val n, s.k + 3 * n⟩) := by
  intro n
  induction n with
  | zero => intro s; simp [DisplayInterface.writeValTimes, fillEvs, pure_run]
  | succ n ih =>
    intro s
    rw [DisplayInterface.writeValTimes, bind_ok (write1_run hok val s), ih]
    simp [St.mk.injEq, fillEvs, List.append_assoc]
    omega

theorem data_x_times_run {env : Env} (hok : ∀ n, env.ok n = true) (val reps : Nat)
    (s : St) :
    DisplayInterface.data_x_times val reps env s =
      (R.ok (), ⟨s.trace ++ Ev.dcHigh :: fillEvs val reps,
        s.k + 3 * reps + 1⟩) := by
  rw [DisplayInterface.data_x_times, bind_ok (pinOp_run Ev.dcHigh (hok _)),
    writeValTimes_run hok]
  simp [St.mk.injEq, List.append_assoc]
  try omega

theorem is_busy_run {env : Env} (hok : ∀ n, env.ok n = true) (busyLow : Bool)
    (s : St) :
    DisplayInterface.is_busy busyLow env s =
      (R.ok (busyRead env busyLow s.k),
        ⟨s.trace ++ [Ev.readBusy (env.busy s.k)], s.k + 1⟩) := by
  rw [DisplayInterface.is_busy, bind_ok (readBusyPin_run (hok _))]
  rfl

theorem busyRead_true (env : Env) (i : Nat) :
    busyRead env true i = !(env.busy i) := by
  simp [busyRead]

theorem busyRead_false (env : Env) (i : Nat) :
    busyRead env false i = env.busy i := by
  simp [busyRead]

theorem wait_fueled_run {env : Env} (hok : ∀ n, env.ok n = true)
    (busyLow : Bool) :
    ∀ (n fuel : Nat) (s : St), stopsAt env busyLow s.k n → n < fuel →
      DisplayInterface.wait_until_idle_fueled busyLow fuel env s =
        (R.ok (), ⟨s.trace ++ pollEvs env s.k (n + 1), s.k + (n + 1)⟩) := by
  intro n
  induction n with
  | zero =>
    intro fuel s hstop hf
    match fuel, hf with
    | fuel + 1, _ =>
      rw [DisplayInterface.wait_until_idle_fueled,
        bind_ok (is_busy_run hok busyLow s)]
      have hb : busyRead env busyLow s.k = false := by simpa using hstop.2
      rw [hb]
      simp [pollEvs, pure_run]
  | succ n ih =>
    intro fuel s hstop hf
    match fuel, hf with
    | fuel + 1, _ =>
      rw [DisplayInterface.wait_until_idle_fueled,
        bind_ok (is_busy_run hok busyLow s)]
      have hb : busyRead env busyLow s.k = true := by
        simpa using hstop.1 0 (Nat.succ_pos n)
      rw [hb]
      have hstop' : stopsAt env busyLow (s.k + 1) n := by
        refine ⟨fun i hi => ?_, ?_⟩
        · rw [show s.k + 1 + i = s.k + (i + 1) by omega]
          exact hstop.1 (i + 1) (by omega)
        · rw [show s.k + 1 + n = s.k + (n + 1) by omega]
          exact hstop.2
      have := ih fuel ⟨s.trace ++ [Ev.readBusy (env.busy s.k)], s.k + 1⟩ hstop'
        (by omega)
      refine Eq.trans ?_ (this.trans ?_)
      · simp
      · simp [St.mk.injEq, pollEvs, List.append_assoc]
        try omega

theorem wait_run {env : Env} (hok : ∀ n, env.ok n = true) (busyLow : Bool)
    {s : St} {n : Nat} (hstop : stopsAt env busyLow s.k n) (hf : n < env.fuel) :
    DisplayInterface.wait_until_idle busyLow env s =
      (R.ok (), ⟨s.trace ++ pollEvs env s.k (n + 1), s.k + (n + 1)⟩) :=
  wait_fueled_run hok busyLow n env.fuel s hstop hf

theorem wait_busy_high_run {env : Env} (hok : ∀ n, env.ok n = true) {s : St}
    {n : Nat} (hstop : stopsAt env true s.k n) (hf : n < env.fuel) :
    Epd5in65f.wait_busy_high env s =
      (R.ok (), ⟨s.trace ++ pollEvs env s.k (n + 1), s.k + (n + 1)⟩) :=
  tryIgnore_of_ok (wait_run hok true hstop hf)

theorem wait_busy_low_run {env : Env} (hok : ∀ n, env.ok n = true) {s : St}
    {n : Nat} (hstop : stopsAt env false s.k n) (hf : n < env.fuel) :
    Epd5in65f.wait_busy_low env s =
      (R.ok (), ⟨s.trace ++ pollEvs env s.k (n + 1), s.k + (n + 1)⟩) :=
  tryIgnore_of_ok (wait_run hok false hstop hf)

theorem reset_run {env : Env} (hok : ∀ n, env.ok n = true) (dur : Nat) (s : St) :
    DisplayInterface.reset dur env s =
      (R.ok (), ⟨s.trace ++ resetEvs dur, s.k + 6⟩) := by
  rw [DisplayInterface.reset, bind_ok (pinOp_run Ev.rstHigh (hok _)),
    bind_ok (delayMs_run 200 (hok _)), bind_ok (pinOp_run Ev.rstLow (hok _)),
    bind_ok (delayMs_run dur (hok _)), bind_ok (pinOp_run Ev.rstHigh (hok _))]
  refine (delayMs_run 200 (hok _)).trans ?_
  simp [St.mk.injEq, resetEvs, List.append_assoc]
  try omega

theorem command5_run {env : Env} (hok : ∀ n, env.ok n = true) (c : Cmd5)
    (s : St) :
    Epd5in65f.command c env s =
      (R.ok (), ⟨s.trace ++ cmdEvs c.address, s.k + 4⟩) :=
  cmd_run hok c.address s

theorem cwd5_run {env : Env} (hok : ∀ n, env.ok n = true) (c : Cmd5)
    {d : List Nat} (h0 : d ≠ []) (h1 : d.length ≤ 4096) (s : St) :
    Epd5in65f.cmd_with_data c d env s =
      (R.ok (), ⟨s.trace ++ cwdEvs c.address d, s.k + 8⟩) :=
  cwd_run hok c.address h0 h1 s

theorem send_resolution5_run {env : Env} (hok : ∀ n, env.ok n = true) (s : St) :
    Epd5in65f.send_resolution env s =
      (R.ok (), ⟨s.trace ++
        resEvs Cmd5.tconResolution.address Epd5in65f.WIDTH Epd5in65f.HEIGHT,
        s.k + 20⟩) := by
  rw [Epd5in65f.send_resolution]
  rw [show Epd5in65f.command Cmd5.tconResolution = DisplayInterface.cmd
    Cmd5.tconResolution.address from rfl]
  rw [show Epd5in65f.send_data = DisplayInterface.data from rfl]
  rw [bind_ok (cmd_run hok Cmd5.tconResolution.address s),
    bind_ok (data1_run hok _ _), bind_ok (data1_run hok _ _),
    bind_ok (data1_run hok _ _)]
  refine (data1_run hok _ _).trans ?_
  simp [St.mk.injEq, resEvs, List.append_assoc]
  try omega

theorem init5_run {env : Env} (hok : ∀ n, env.ok n = true) (s : St) :
    Epd5in65f.init env s = (R.ok (), ⟨s.trace ++ init5Evs, s.k + 107⟩) := by
  rw [Epd5in65f.init, bind_ok (reset_run hok 2 s),
    bind_ok (cwd5_run hok _ (by simp) (by simp) _),
    bind_ok (cwd5_run hok _ (by simp) (by simp) _),
    bind_ok (cwd5_run hok _ (by simp) (by simp) _),
    bind_ok (cwd5_run hok _ (by simp) (by simp) _),
    bind_ok (cwd5_run hok _ (by simp) (by simp) _),
    bind_ok (cwd5_run hok _ (by simp) (by simp) _),
    bind_ok (cwd5_run hok _ (by simp) (by simp) _),
    bind_ok (cwd5_run hok _ (by simp) (by simp) _),
    bind_ok (send_resolution5_run hok _),
    bind_ok (cwd5_run hok _ (by simp) (by simp) _),
    bind_ok (delayMs_run 100 (hok _))]
  refine (cwd5_run hok _ (by simp) (by simp) _).trans ?_
  simp [St.mk.injEq, init5Evs, List.append_assoc]
  try omega

theorem display5_run {env : Env} (hok : ∀ n, env.ok n = true) {s : St}
    {n1 n2 n3 n4 : Nat}
    (h1 : stopsAt env true s.k n1) (f1 : n1 < env.fuel)
    (h2 : stopsAt env true (s.k + (n1 + 1) + 4) n2) (f2 : n2 < env.fuel)
    (h3 : stopsAt env true (s.k + (n1 + 1) + 4 + (n2 + 1) + 4) n3)
    (f3 : n3 < env.fuel)
    (h4 : stopsAt env false (s.k + (n1 + 1) + 4 + (n2 + 1) + 4 + (n3 + 1) + 4) n4)
    (f4 : n4 < env.fuel) :
    Epd5in65f.display_frame env s =
      (R.ok (), ⟨s.trace ++ pollEvs env s.k (n1 + 1) ++
        cmdEvs Cmd5.powerOn.address ++
        pollEvs env (s.k + (n1 + 1) + 4) (n2 + 1) ++
        cmdEvs Cmd5.displayRefresh.address ++
        pollEvs env (s.k + (n1 + 1) + 4 + (n2 + 1) + 4) (n3 + 1) ++
        cmdEvs Cmd5.powerOff.address ++
        pollEvs env (s.k + (n1 + 1) + 4 + (n2 + 1) + 4 + (n3 + 1) + 4) (n4 + 1),
        s.k + n1 + n2 + n3 + n4 + 16⟩) := by
  rw [Epd5in65f.display_frame,
    bind_ok (wait_busy_high_run hok h1 f1),
    bind_ok (command5_run hok Cmd5.powerOn _),
    bind_ok (wait_busy_high_run hok h2 f2),
    bind_ok (command5_run hok Cmd5.displayRefresh _),
    bind_ok (wait_busy_high_run hok h3 f3),
    bind_ok (command5_run hok Cmd5.powerOff _)]
  refine (wait_busy_low_run hok h4 f4).trans ?_
  simp [St.mk.injEq, List.append_assoc]
  try omega

theorem clear5_run {env : Env} (hok : ∀ n, env.ok n = true) (c : OctColor)
    {s : St} {n0 n1 n2 n3 n4 : Nat}
    (h0 : stopsAt env true s.k n0) (f0 : n0 < env.fuel)
    (h1 : stopsAt env true (s.k + n0 + 403226) n1) (f1 : n1 < env.fuel)
    (h2 : stopsAt env true (s.k + n0 + n1 + 403231) n2) (f2 : n2 < env.fuel)
    (h3 : stopsAt env true (s.k + n0 + n1 + n2 + 403236) n3) (f3 : n3 < env.fuel)
    (h4 : stopsAt env false (s.k + n0 + n1 + n2 + n3 + 403241) n4)
    (f4 : n4 < env.fuel) :
    Epd5in65f.clear_frame c env s =
      (R.ok (), ⟨s.trace ++ pollEvs env s.k (n0 + 1) ++
        resEvs Cmd5.tconResolution.address Epd5in65f.WIDTH Epd5in65f.HEIGHT ++
        cmdEvs Cmd5.dataStartTransmission1.address ++
        Ev.dcHigh :: fillEvs (OctColor.colors_byte c c) 134400 ++
        pollEvs env (s.k + n0 + 403226) (n1 + 1) ++
        cmdEvs Cmd5.powerOn.address ++
        pollEvs env (s.k + n0 + n1 + 403231) (n2 + 1) ++
        cmdEvs Cmd5.displayRefresh.address ++
        pollEvs env (s.k + n0 + n1 + n2 + 403236) (n3 + 1) ++
        cmdEvs Cmd5.powerOff.address ++
        pollEvs env (s.k + n0 + n1 + n2 + n3 + 403241) (n4 + 1),
        s.k + n0 + n1 + n2 + n3 + n4 + 403242⟩) := by
  have h1' : stopsAt env true (s.k + (n0 + 1) + 20 + 4 + 3 * 134400 + 1) n1 := by
    rw [show s.k + (n0 + 1) + 20 + 4 + 3 * 134400 + 1 = s.k + n0 + 403226 by omega]
    exact h1
  have h2' : stopsAt env true
      (s.k + (n0 + 1) + 20 + 4 + 3 * 134400 + 1 + (n1 + 1) + 4) n2 := by
    rw [show s.k + (n0 + 1) + 20 + 4 + 3 * 134400 + 1 + (n1 + 1) + 4 =
      s.k + n0 + n1 + 403231 by omega]
    exact h2
  have h3' : stopsAt env true
      (s.k + (n0 + 1) + 20 + 4 + 3 * 134400 + 1 + (n1 + 1) + 4 + (n2 + 1) + 4)
      n3 := by
    rw [show s.k + (n0 + 1) + 20 + 4 + 3 * 134400 + 1 + (n1 + 1) + 4 + (n2 + 1) + 4 =
      s.k + n0 + n1 + n2 + 403236 by omega]
    exact h3
  have h4' : stopsAt env false
      (s.k + (n0 + 1) + 20 + 4 + 3 * 134400 + 1 + (n1 + 1) + 4 + (n2 + 1) + 4 +
        (n3 + 1) + 4) n4 := by
    rw [show s.k + (n0 + 1) + 20 + 4 + 3 * 134400 + 1 + (n1 + 1) + 4 + (n2 + 1) + 4 +
      (n3 + 1) + 4 = s.k + n0 + n1 + n2 + n3 + 403241 by omega]
    exact h4
  rw [Epd5in65f.clear_frame,
    show Epd5in65f.WIDTH * Epd5in65f.HEIGHT / 2 = 134400 from rfl,
    bind_ok (wait_busy_high_run hok h0 f0),
    bind_ok (send_resolution5_run hok _),
    bind_ok (command5_run hok Cmd5.dataStartTransmission1 _),
    bind_ok (data_x_times_run hok _ 134400 _)]
  refine (display5_run hok h1' f1 h2' f2 h3' f3 h4' f4).trans ?_
  rw [show s.k + (n0 + 1) + 20 + 4 + 3 * 134400 + 1 = s.k + n0 + 403226 by omega,
    show s.k + n0 + 403226 + (n1 + 1) + 4 = s.k + n0 + n1 + 403231 by omega,
    show s.k + n0 + n1 + 403231 + (n2 + 1) + 4 = s.k + n0 + n1 + n2 + 403236 by
      omega,
    show s.k + n0 + n1 + n2 + 403236 + (n3 + 1) + 4 =
      s.k + n0 + n1 + n2 + n3 + 403241 by omega]
  simp [St.mk.injEq, List.append_assoc]
  try omega

theorem command7_run {env : Env} (hok : ∀ n, env.ok n = true) (c : Cmd7)
    (s : St) :
    Epd7in5.command c env s =
      (R.ok (), ⟨s.trace ++ cmdEvs c.address, s.k + 4⟩) :=
  cmd_run hok c.address s

theorem cwd7_run {env : Env} (hok : ∀ n, env.ok n = true) (c : Cmd7)
    {d : List Nat} (h0 : d ≠ []) (h1 : d.length ≤ 4096) (s : St) :
    Epd7in5.cmd_with_data c d env s =
      (R.ok (), ⟨s.trace ++ cwdEvs c.address d, s.k + 8⟩) :=
  cwd_run hok c.address h0 h1 s

theorem send_resolution7_run {env : Env} (hok : ∀ n, env.ok n = true) (s : St) :
    Epd7in5.send_resolution env s =
      (R.ok (), ⟨s.trace ++
        resEvs Cmd7.tconResolution.address Epd7in5.WIDTH Epd7in5.HEIGHT,
        s.k + 20⟩) := by
  rw [Epd7in5.send_resolution]
  rw [show Epd7in5.command Cmd7.tconResolution = DisplayInterface.cmd
    Cmd7.tconResolution.address from rfl]
  rw [show Epd7in5.send_data = DisplayInterface.data from rfl]
  rw [bind_ok (cmd_run hok Cmd7.tconResolution.address s),
    bind_ok (data1_run hok _ _), bind_ok (data1_run hok _ _),
    bind_ok (data1_run hok _ _)]
  refine (data1_run hok _ _).trans ?_
  simp [St.mk.injEq, resEvs, List.append_assoc]
  try omega

theorem wait7_fueled_run {env : Env} (hok : ∀ n, env.ok n = true) :
    ∀ (m fuel : Nat) (s : St), stops7 env s.k m → m < fuel →
      Epd7in5.wait_until_idle_fueled fuel env s =
        (R.ok (), ⟨s.trace ++ poll7Evs env s.k m, s.k + (6 * m + 1)⟩) := by
  intro m
  induction m with
  | zero =>
    intro fuel s hstop hf
    match fuel, hf with
    | fuel + 1, _ =>
      have hbusy : env.busy s.k = true := by simpa using hstop.2
      rw [Epd7in5.wait_until_idle_fueled,
        bind_ok (is_busy_run hok Epd7in5.IS_BUSY_LOW s),
        show busyRead env Epd7in5.IS_BUSY_LOW s.k = false by
          simp [Epd7in5.IS_BUSY_LOW, busyRead_true, hbusy]]
      simp [poll7Evs, pure_run, hbusy]
  | succ m ih =>
    intro fuel s hstop hf
    match fuel, hf with
    | fuel + 1, _ =>
      have hbusy : env.busy s.k = false := by simpa using hstop.1 0 (Nat.succ_pos m)
      rw [Epd7in5.wait_until_idle_fueled,
        bind_ok (is_busy_run hok Epd7in5.IS_BUSY_LOW s),
        show busyRead env Epd7in5.IS_BUSY_LOW s.k = true by
          simp [Epd7in5.IS_BUSY_LOW, busyRead_true, hbusy],
        if_pos rfl,
        bind_ok (cmd_run hok Cmd7.getStatus.address _),
        bind_ok (delayMs_run 20 (hok _))]
      have hstop' : stops7 env (s.k + 1 + 4 + 1) m := by
        refine ⟨fun i hi => ?_, ?_⟩
        · rw [show s.k + 1 + 4 + 1 + 6 * i = s.k + 6 * (i + 1) by omega]
          exact hstop.1 (i + 1) (by omega)
        · rw [show s.k + 1 + 4 + 1 + 6 * m = s.k + 6 * (m + 1) by omega]
          exact hstop.2
      refine (ih fuel _ hstop' (by omega)).trans ?_
      simp [St.mk.injEq, poll7Evs, List.append_assoc, hbusy]
      try omega

theorem wait7_run {env : Env} (hok : ∀ n, env.ok n = true) {s : St} {m : Nat}
    (hstop : stops7 env s.k m) (hf : m < env.fuel) :
    Epd7in5.wait_until_idle env s =
      (R.ok (), ⟨s.trace ++ poll7Evs env s.k m, s.k + (6 * m + 1)⟩) :=
  wait7_fueled_run hok m env.fuel s hstop hf

theorem clear7_run {env : Env} (hok : ∀ n, env.ok n = true) (c : Color)
    {s : St} {m0 : Nat} (h0 : stops7 env s.k m0) (f0 : m0 < env.fuel) :
    Epd7in5.clear_frame c env s =
      (R.ok (), ⟨s.trace ++ poll7Evs env s.k m0 ++
        resEvs Cmd7.tconResolution.address Epd7in5.WIDTH Epd7in5.HEIGHT ++
        cmdEvs Cmd7.dataStartTransmission1.address ++
        Ev.dcHigh :: fillEvs 0x00 48000 ++
        cmdEvs Cmd7.dataStartTransmission2.address ++
        Ev.dcHigh :: fillEvs 0x00 48000 ++
        cmdEvs Cmd7.displayRefresh.address,
        s.k + 6 * m0 + 288035⟩) := by
  rw [Epd7in5.clear_frame,
    show Epd7in5.WIDTH * Epd7in5.HEIGHT / 8 = 48000 from rfl,
    bind_ok (wait7_run hok h0 f0),
    bind_ok (send_resolution7_run hok _),
    bind_ok (command7_run hok Cmd7.dataStartTransmission1 _),
    bind_ok (data_x_times_run hok _ 48000 _),
    bind_ok (command7_run hok Cmd7.dataStartTransmission2 _),
    bind_ok (data_x_times_run hok _ 48000 _)]
  refine (command7_run hok Cmd7.displayRefresh _).trans ?_
  simp only [Prod.mk.injEq, St.mk.injEq, List.append_assoc]
  exact ⟨trivial, trivial, by omega⟩

/-! ## Fail-fast lemmas -/

theorem bind_unimpl {α β : Type} {m : M α} {f : α → M β} {env : Env}
    {s s' : St} (h : m env s = (R.unimpl, s')) :
    (m >>= f) env s = (R.unimpl, s') := by
  rw [bind_def, h]

theorem bind_diverge {α β : Type} {m : M α} {f : α → M β} {env : Env}
    {s s' : St} (h : m env s = (R.diverge, s')) :
    (m >>= f) env s = (R.diverge, s') := by
  rw [bind_def, h]

theorem okSound_pure {α : Type} (a : α) : OkSound (pure a : M α) := by
  intro env s a' s' h
  injection h with h1 h2
  subst h2
  exact ⟨le_rfl, fun i hi1 hi2 => absurd hi2 (by omega), by omega,
    List.prefix_refl _⟩

theorem faultStops_pure {α : Type} (a : α) : FaultStops (pure a : M α) := by
  intro env s f s' h
  injection h with h1 h2
  injection h1

theorem failFast_pure {α : Type} (a : α) : FailFast (pure a : M α) :=
  ⟨okSound_pure a, faultStops_pure a⟩

theorem failFast_notImpl {α : Type} : FailFast (notImpl : M α) := by
  constructor <;> intro env s x s' h <;> injection h with h1 h2 <;> injection h1

theorem failFast_outOfFuel {α : Type} : FailFast (outOfFuel : M α) := by
  constructor <;> intro env s x s' h <;> injection h with h1 h2 <;> injection h1

theorem failFast_getLinux : FailFast getLinux := by
  constructor <;> intro env s x s' h <;> injection h with h1 h2
  · subst h2
    exact ⟨le_rfl, fun i hi1 hi2 => absurd hi2 (by omega), by omega,
      List.prefix_refl _⟩
  · injection h1

/-- Every one-operation primitive is fail-fast. -/
theorem failFast_step {α : Type} (m : M α) (v : Env → St → α)
    (ev : Env → St → Ev) (fl : Fault)
    (hm : ∀ env s, m env s =
      if env.ok s.k then (R.ok (v env s), ⟨s.trace ++ [ev env s], s.k + 1⟩)
      else (R.err fl, ⟨s.trace, s.k + 1⟩)) : FailFast m := by
  constructor
  · intro env s a s' h
    rw [hm] at h
    by_cases hk : env.ok s.k = true
    · rw [if_pos hk] at h
      injection h with h1 h2
      subst h2
      refine ⟨by dsimp only; omega, fun i hi1 hi2 => ?_, ?_,
        List.prefix_append _ _⟩
      · have : i = s.k := by dsimp only at hi2; omega
        rwa [this]
      · dsimp only
        simp only [List.length_append, List.length_cons, List.length_nil]
        omega
    · rw [if_neg hk] at h
      injection h with h1 h2
      injection h1
  · intro env s f s' h
    rw [hm] at h
    by_cases hk : env.ok s.k = true
    · rw [if_pos hk] at h
      injection h with h1 h2
      injection h1
    · rw [if_neg hk] at h
      injection h with h1 h2
      subst h2
      refine ⟨by dsimp only; omega, ?_, fun i hi1 hi2 => ?_,
        by dsimp only; omega, List.prefix_refl _⟩
      · dsimp only
        simpa using hk
      · dsimp only at hi2
        omega

theorem failFast_pinOp (e : Ev) : FailFast (pinOp e) :=
  failFast_step _ (fun _ _ => ()) (fun _ _ => e) Fault.pinErr fun _ _ => rfl

theorem failFast_spiTryWrite (d : List Nat) : FailFast (spiTryWrite d) :=
  failFast_step _ (fun _ _ => ()) (fun _ _ => Ev.spi d) Fault.spiErr
    fun _ _ => rfl

theorem failFast_delayMs (ms : Nat) : FailFast (delayMs ms) :=
  failFast_step _ (fun _ _ => ()) (fun _ _ => Ev.delayed ms) Fault.delayErr
    fun _ _ => rfl

theorem failFast_readBusyPin : FailFast readBusyPin :=
  failFast_step _ (fun env s => env.busy s.k)
    (fun env s => Ev.readBusy (env.busy s.k)) Fault.pinErr fun _ _ => rfl

theorem okSound_bind {α β : Type} {m : M α} {f : α → M β}
    (hm : OkSound m) (hf : ∀ a, OkSound (f a)) : OkSound (m >>= f) := by
  intro env s b s' h
  rcases hm1 : m env s with ⟨r, s1⟩
  cases r with
  | ok a =>
    rw [bind_ok hm1] at h
    obtain ⟨k1, k2, k3, k4⟩ := hm env s a s1 hm1
    obtain ⟨l1, l2, l3, l4⟩ := hf a env s1 b s' h
    refine ⟨by omega, fun i hi1 hi2 => ?_, by omega, k4.trans l4⟩
    by_cases hi : i < s1.k
    · exact k2 i hi1 hi
    · exact l2 i (by omega) hi2
  | err e =>
    rw [bind_err hm1] at h
    injection h with h1 h2
    injection h1
  | unimpl =>
    rw [bind_unimpl hm1] at h
    injection h with h1 h2
    injection h1
  | diverge =>
    rw [bind_diverge hm1] at h
    injection h with h1 h2
    injection h1

theorem faultStops_bind {α β : Type} {m : M α} {f : α → M β}
    (hm : FaultStops m) (hmo : OkSound m) (hf : ∀ a, FaultStops (f a)) :
    FaultStops (m >>= f) := by
  intro env s e s' h
  rcases hm1 : m env s with ⟨r, s1⟩
  cases r with
  | ok a =>
    rw [bind_ok hm1] at h
    obtain ⟨k1, k2, k3, k4⟩ := hmo env s a s1 hm1
    obtain ⟨l1, l2, l3, l4, l5⟩ := hf a env s1 e s' h
    refine ⟨by omega, l2, fun i hi1 hi2 => ?_, by omega, k4.trans l5⟩
    by_cases hi : i < s1.k
    · exact k2 i hi1 hi
    · exact l3 i (by omega) hi2
  | err e1 =>
    rw [bind_err hm1] at h
    injection h with h1 h2
    injection h1 with h1'
    subst h1'
    subst h2
    exact hm _ _ _ _ hm1
  | unimpl =>
    rw [bind_unimpl hm1] at h
    injection h with h1 h2
    injection h1
  | diverge =>
    rw [bind_diverge hm1] at h
    injection h with h1 h2
    injection h1

theorem failFast_bind {α β : Type} {m : M α} {f : α → M β}
    (hm : FailFast m) (hf : ∀ a, FailFast (f a)) : FailFast (m >>= f) :=
  ⟨okSound_bind hm.1 fun a => (hf a).1,
    faultStops_bind hm.2 hm.1 fun a => (hf a).2⟩

theorem failFast_ite {α : Type} (b : Bool) {m1 m2 : M α}
    (h1 : FailFast m1) (h2 : FailFast m2) :
    FailFast (if b then m1 else m2) := by
  cases b
  · simpa using h2
  · simpa using h1

theorem failFast_writeChunks (cs : List (List Nat)) :
    FailFast (DisplayInterface.writeChunks cs) := by
  induction cs with
  | nil => exact failFast_pure ()
  | cons c cs ih =>
    rw [DisplayInterface.writeChunks]
    exact failFast_bind (failFast_spiTryWrite c) fun _ => ih

theorem failFast_write (d : List Nat) : FailFast (DisplayInterface.write d) := by
  unfold DisplayInterface.write
  exact failFast_bind (failFast_pinOp Ev.csLow) fun _ =>
    failFast_bind failFast_getLinux fun b =>
      failFast_ite b
        (failFast_bind (failFast_writeChunks _) fun _ =>
          failFast_pinOp Ev.csHigh)
        (failFast_bind (failFast_spiTryWrite d) fun _ =>
          failFast_pinOp Ev.csHigh)

theorem failFast_cmd (c : Nat) : FailFast (DisplayInterface.cmd c) := by
  unfold DisplayInterface.cmd
  exact failFast_bind (failFast_pinOp Ev.dcLow) fun _ => failFast_write [c]

theorem failFast_data (d : List Nat) : FailFast (DisplayInterface.data d) := by
  unfold DisplayInterface.data
  exact failFast_bind (failFast_pinOp Ev.dcHigh) fun _ => failFast_write d

theorem failFast_cwd (c : Nat) (d : List Nat) :
    FailFast (DisplayInterface.cmd_with_data c d) := by
  unfold DisplayInterface.cmd_with_data
  exact failFast_bind (failFast_cmd c) fun _ => failFast_data d

theorem failFast_writeValTimes (val n : Nat) :
    FailFast (DisplayInterface.writeValTimes val n) := by
  induction n with
  | zero => exact failFast_pure ()
  | succ n ih =>
    rw [DisplayInterface.writeValTimes]
    exact failFast_bind (failFast_write [val]) fun _ => ih

theorem failFast_data_x_times (val reps : Nat) :
    FailFast (DisplayInterface.data_x_times val reps) := by
  unfold DisplayInterface.data_x_times
  exact failFast_bind (failFast_pinOp Ev.dcHigh) fun _ =>
    failFast_writeValTimes val reps

theorem failFast_is_busy (busyLow : Bool) :
    FailFast (DisplayInterface.is_busy busyLow) := by
  unfold DisplayInterface.is_busy
  exact failFast_bind failFast_readBusyPin fun lvl => failFast_pure _

theorem failFast_wait_fueled (busyLow : Bool) (fuel : Nat) :
    FailFast (DisplayInterface.wait_until_idle_fueled busyLow fuel) := by
  induction fuel with
  | zero => exact failFast_outOfFuel
  | succ fuel ih =>
    rw [DisplayInterface.wait_until_idle_fueled]
    exact failFast_bind (failFast_is_busy busyLow) fun b =>
      failFast_ite b ih (failFast_pure ())

theorem failFast_wait (busyLow : Bool) :
    FailFast (DisplayInterface.wait_until_idle busyLow) := by
  constructor
  · intro env s a s' h
    exact (failFast_wait_fueled busyLow env.fuel).1 env s a s' h
  · intro env s f s' h
    exact (failFast_wait_fueled busyLow env.fuel).2 env s f s' h

theorem failFast_reset (dur : Nat) : FailFast (DisplayInterface.reset dur) := by
  unfold DisplayInterface.reset
  exact failFast_bind (failFast_pinOp Ev.rstHigh) fun _ =>
    failFast_bind (failFast_delayMs 200) fun _ =>
    failFast_bind (failFast_pinOp Ev.rstLow) fun _ =>
    failFast_bind (failFast_delayMs dur) fun _ =>
    failFast_bind (failFast_pinOp Ev.rstHigh) fun _ => failFast_delayMs 200

theorem failFast_send_resolution5 : FailFast Epd5in65f.send_resolution := by
  unfold Epd5in65f.send_resolution
  exact failFast_bind (failFast_cmd _) fun _ =>
    failFast_bind (failFast_data _) fun _ =>
    failFast_bind (failFast_data _) fun _ =>
    failFast_bind (failFast_data _) fun _ => failFast_data _

theorem failFast_init5 : FailFast Epd5in65f.init := by
  unfold Epd5in65f.init
  exact failFast_bind (failFast_reset 2) fun _ =>
    failFast_bind (failFast_cwd _ _) fun _ =>
    failFast_bind (failFast_cwd _ _) fun _ =>
    failFast_bind (failFast_cwd _ _) fun _ =>
    failFast_bind (failFast_cwd _ _) fun _ =>
    failFast_bind (failFast_cwd _ _) fun _ =>
    failFast_bind (failFast_cwd _ _) fun _ =>
    failFast_bind (failFast_cwd _ _) fun _ =>
    failFast_bind (failFast_cwd _ _) fun _ =>
    failFast_bind failFast_send_resolution5 fun _ =>
    failFast_bind (failFast_cwd _ _) fun _ =>
    failFast_bind (failFast_delayMs 100) fun _ => failFast_cwd _ _

theorem failFast_new5 : FailFast Epd5in65f.new := by
  unfold Epd5in65f.new
  exact failFast_bind failFast_init5 fun _ => failFast_pure _

theorem failFast_wake_up5 (c : OctColor) : FailFast (Epd5in65f.wake_up c) := by
  unfold Epd5in65f.wake_up
  exact failFast_bind failFast_init5 fun _ => failFast_pure _

theorem failFast_sleep5 (c : OctColor) : FailFast (Epd5in65f.sleep c) := by
  unfold Epd5in65f.sleep
  exact failFast_bind (failFast_cwd _ _) fun _ => failFast_pure _

theorem failFast_is_busy5 : FailFast Epd5in65f.is_busy :=
  failFast_is_busy Epd5in65f.IS_BUSY_LOW

theorem failFast_wait7_fueled (fuel : Nat) :
    FailFast (Epd7in5.wait_until_idle_fueled fuel) := by
  induction fuel with
  | zero => exact failFast_outOfFuel
  | succ fuel ih =>
    rw [Epd7in5.wait_until_idle_fueled]
    exact failFast_bind (failFast_is_busy Epd7in5.IS_BUSY_LOW) fun b =>
      failFast_ite b
        (failFast_bind (failFast_cmd _) fun _ =>
          failFast_bind (failFast_delayMs 20) fun _ => ih)
        (failFast_pure ())

theorem failFast_wait7 : FailFast Epd7in5.wait_until_idle := by
  constructor
  · intro env s a s' h
    exact (failFast_wait7_fueled env.fuel).1 env s a s' h
  · intro env s f s' h
    exact (failFast_wait7_fueled env.fuel).2 env s f s' h

theorem failFast_send_resolution7 : FailFast Epd7in5.send_resolution := by
  unfold Epd7in5.send_resolution
  exact failFast_bind (failFast_cmd _) fun _ =>
    failFast_bind (failFast_data _) fun _ =>
    failFast_bind (failFast_data _) fun _ =>
    failFast_bind (failFast_data _) fun _ => failFast_data _

theorem failFast_init7 : FailFast Epd7in5.init := by
  unfold Epd7in5.init
  exact failFast_bind (failFast_reset 2) fun _ =>
    failFast_bind (failFast_cwd _ _) fun _ =>
    failFast_bind (failFast_cwd _ _) fun _ =>
    failFast_bind (failFast_cmd _) fun _ =>
    failFast_bind failFast_wait7 fun _ =>
    failFast_bind (failFast_cwd _ _) fun _ =>
    failFast_bind (failFast_cwd _ _) fun _ =>
    failFast_bind (failFast_cwd _ _) fun _ =>
    failFast_bind (failFast_cwd _ _) fun _ =>
    failFast_bind (failFast_cwd _ _) fun _ =>
    failFast_bind (failFast_cwd _ _) fun _ => failFast_wait7

theorem failFast_new7 : FailFast Epd7in5.new := by
  unfold Epd7in5.new
  exact failFast_bind failFast_init7 fun _ => failFast_pure _

theorem failFast_wake_up7 (c : Color) : FailFast (Epd7in5.wake_up c) := by
  unfold Epd7in5.wake_up
  exact failFast_bind failFast_init7 fun _ => failFast_pure _

theorem failFast_sleep7 (c : Color) : FailFast (Epd7in5.sleep c) := by
  unfold Epd7in5.sleep
  exact failFast_bind failFast_wait7 fun _ =>
    failFast_bind (failFast_cmd _) fun _ =>
    failFast_bind failFast_wait7 fun _ =>
    failFast_bind (failFast_cwd _ _) fun _ => failFast_pure _

theorem failFast_update_frame7 (buffer : List Nat) :
    FailFast (Epd7in5.update_frame buffer) := by
  unfold Epd7in5.update_frame
  exact failFast_bind failFast_wait7 fun _ => failFast_cwd _ _

theorem failFast_display_frame7 : FailFast Epd7in5.display_frame := by
  unfold Epd7in5.display_frame
  exact failFast_bind failFast_wait7 fun _ => failFast_cmd _

theorem failFast_uadf7 (buffer : List Nat) :
    FailFast (Epd7in5.update_and_display_frame buffer) := by
  unfold Epd7in5.update_and_display_frame
  exact failFast_bind (failFast_update_frame7 buffer) fun _ => failFast_cmd _

theorem failFast_clear_frame7 (c : Color) :
    FailFast (Epd7in5.clear_frame c) := by
  unfold Epd7in5.clear_frame
  exact failFast_bind failFast_wait7 fun _ =>
    failFast_bind failFast_send_resolution7 fun _ =>
    failFast_bind (failFast_cmd _) fun _ =>
    failFast_bind (failFast_data_x_times _ _) fun _ =>
    failFast_bind (failFast_cmd _) fun _ =>
    failFast_bind (failFast_data_x_times _ _) fun _ => failFast_cmd _

theorem failFast_is_busy7 : FailFast Epd7in5.is_busy :=
  failFast_is_busy Epd7in5.IS_BUSY_LOW

/-- `let _ = m;` never reports a fault: whatever `m` returns, the wrapper's
result is never `R.err`. -/
theorem tryIgnore_no_err {α : Type} (m : M α) (env : Env) (s s' : St)
    (f : Fault) : tryIgnore m env s ≠ (R.err f, s') := by
  intro h
  rcases hm : m env s with ⟨r, s1⟩
  cases r with
  | ok a =>
    rw [tryIgnore_of_ok hm] at h
    injection h with h1 h2
    injection h1
  | err e =>
    rw [tryIgnore_of_err hm] at h
    injection h with h1 h2
    injection h1
  | unimpl =>
    have hu : tryIgnore m env s = (R.unimpl, s1) := by
      unfold tryIgnore
      rw [hm]
    rw [hu] at h
    injection h with h1 h2
    injection h1
  | diverge =>
    have hd : tryIgnore m env s = (R.diverge, s1) := by
      unfold tryIgnore
      rw [hm]
    rw [hd] at h
    injection h with h1 h2
    injection h1

theorem failFast_command5 (c : Cmd5) : FailFast (Epd5in65f.command c) :=
  failFast_cmd c.address

theorem failFast_cwd5 (c : Cmd5) (d : List Nat) :
    FailFast (Epd5in65f.cmd_with_data c d) :=
  failFast_cwd c.address d

/-- The whole command/data segment of `Epd5in65f.update_frame` — everything
after its single busy wait — is fail-fast. -/
theorem failFast_update_seg5 (buffer : List Nat) :
    FailFast (Epd5in65f.send_resolution >>= fun _ =>
      Epd5in65f.cmd_with_data Cmd5.dataStartTransmission1 buffer) :=
  failFast_bind failFast_send_resolution5 fun _ => failFast_cwd _ _

/-! ## Value and trace bookkeeping helpers -/

theorem run_bind_pure_val {α : Type} (m : M Unit) (c : α) (env : Env) (s : St)
    {a : α} {s' : St} (h : (m >>= fun _ => pure c) env s = (R.ok a, s')) :
    a = c := by
  rcases hm : m env s with ⟨r, s1⟩
  cases r with
  | ok u =>
    rw [bind_ok hm] at h
    injection h with h1 h2
    injection h1 with h1'
    exact h1'.symm
  | err e =>
    rw [bind_err hm] at h
    injection h with h1 h2
    injection h1
  | unimpl =>
    rw [bind_unimpl hm] at h
    injection h with h1 h2
    injection h1
  | diverge =>
    rw [bind_diverge hm] at h
    injection h with h1 h2
    injection h1

theorem bind_ok_val {α β : Type} {m : M α} {f : α → M β} {env : Env} {s : St}
    {b : β} {s' : St} (h : (m >>= f) env s = (R.ok b, s')) :
    ∃ a s1, m env s = (R.ok a, s1) ∧ f a env s1 = (R.ok b, s') := by
  rcases hm : m env s with ⟨r, s1⟩
  cases r with
  | ok a =>
    rw [bind_ok hm] at h
    exact ⟨a, s1, rfl, h⟩
  | err e =>
    rw [bind_err hm] at h
    injection h with h1 h2
    injection h1
  | unimpl =>
    rw [bind_unimpl hm] at h
    injection h with h1 h2
    injection h1
  | diverge =>
    rw [bind_diverge hm] at h
    injection h with h1 h2
    injection h1

theorem bind_pure_mapVal {α β : Type} (m : M Unit) (x : α) (y : β) (env : Env)
    (s : St) :
    (m >>= fun _ => pure x) env s =
      (R.mapVal (fun _ => x) ((m >>= fun _ => pure y) env s).1,
        ((m >>= fun _ => pure y) env s).2) := by
  rcases h : m env s with ⟨r, s1⟩
  cases r with
  | ok a => rw [bind_ok h, bind_ok h]; simp [pure_run, R.mapVal]
  | err e => rw [bind_err h, bind_err h]; simp [R.mapVal]
  | unimpl => rw [bind_unimpl h, bind_unimpl h]; simp [R.mapVal]
  | diverge => rw [bind_diverge h, bind_diverge h]; simp [R.mapVal]

theorem sleep5_val (c : OctColor) {env : Env} {s : St} {x : OctColor} {s' : St}
    (h : Epd5in65f.sleep c env s = (R.ok x, s')) : x = c := by
  have h' : (Epd5in65f.cmd_with_data Cmd5.deepSleep [0xA5] >>= fun _ => pure c)
      env s = (R.ok x, s') := h
  exact run_bind_pure_val _ c env s h'

theorem wake5_val (c : OctColor) {env : Env} {s : St} {x : OctColor} {s' : St}
    (h : Epd5in65f.wake_up c env s = (R.ok x, s')) : x = c := by
  have h' : (Epd5in65f.init >>= fun _ => pure c) env s = (R.ok x, s') := h
  exact run_bind_pure_val _ c env s h'

theorem sleep7_val (c : Color) {env : Env} {s : St} {x : Color} {s' : St}
    (h : Epd7in5.sleep c env s = (R.ok x, s')) : x = c := by
  have h' : (Epd7in5.wait_until_idle >>= fun _ =>
      Epd7in5.command Cmd7.powerOff >>= fun _ =>
      Epd7in5.wait_until_idle >>= fun _ =>
      Epd7in5.cmd_with_data Cmd7.deepSleep [0xA5] >>= fun _ =>
      pure c) env s = (R.ok x, s') := h
  obtain ⟨_, s1, _, h'⟩ := bind_ok_val h'
  obtain ⟨_, s2, _, h'⟩ := bind_ok_val h'
  obtain ⟨_, s3, _, h'⟩ := bind_ok_val h'
  exact run_bind_pure_val _ c env s3 h'

theorem wake7_val (c : Color) {env : Env} {s : St} {x : Color} {s' : St}
    (h : Epd7in5.wake_up c env s = (R.ok x, s')) : x = c := by
  have h' : (Epd7in5.init >>= fun _ => pure c) env s = (R.ok x, s') := h
  exact run_bind_pure_val _ c env s h'

theorem cycle5_val (c : OctColor) {env : Env} {s : St} {x : OctColor} {s' : St}
    (h : (Epd5in65f.sleep c >>= Epd5in65f.wake_up) env s = (R.ok x, s')) :
    x = c := by
  obtain ⟨c1, s1, h1, h2⟩ := bind_ok_val h
  rw [wake5_val c1 h2, sleep5_val c h1]

theorem cycle7_val (c : Color) {env : Env} {s : St} {x : Color} {s' : St}
    (h : (Epd7in5.sleep c >>= Epd7in5.wake_up) env s = (R.ok x, s')) :
    x = c := by
  obtain ⟨c1, s1, h1, h2⟩ := bind_ok_val h
  rw [wake7_val c1 h2, sleep7_val c h1]

theorem opcodesGo_append (xs : List Ev) : ∀ (b : Bool) (ys : List Ev),
    opcodesGo b (xs ++ ys) = opcodesGo b xs ++ opcodesGo (dcAfter b xs) ys := by
  induction xs with
  | nil => intro b ys; simp [opcodesGo, dcAfter]
  | cons x xs ih =>
    intro b ys
    cases x <;>
      simp only [List.cons_append, opcodesGo, dcAfter, List.append_eq, ih,
        List.append_assoc]
    cases b <;> simp [List.append_eq, ih, List.append_assoc]

theorem opcodesGo_pollEvs (env : Env) (b : Bool) :
    ∀ (start n : Nat), opcodesGo b (pollEvs env start n) = [] := by
  intro start n
  induction n generalizing start with
  | zero => simp [pollEvs, opcodesGo]
  | succ n ih => simp [pollEvs, opcodesGo, ih]

theorem dcAfter_pollEvs (env : Env) (b : Bool) :
    ∀ (start n : Nat), dcAfter b (pollEvs env start n) = b := by
  intro start n
  induction n generalizing start with
  | zero => simp [pollEvs, dcAfter]
  | succ n ih => simp [pollEvs, dcAfter, ih]

theorem opcodesGo_cmdEvs (b : Bool) (c : Nat) :
    opcodesGo b (cmdEvs c) = [c] := rfl

theorem dcAfter_cmdEvs (b : Bool) (c : Nat) : dcAfter b (cmdEvs c) = true := rfl

theorem countCsLow_append (xs ys : List Ev) :
    countCsLow (xs ++ ys) = countCsLow xs + countCsLow ys := by
  induction xs with
  | nil => simp [countCsLow]
  | cons x xs ih => cases x <;> simp [countCsLow, ih, Nat.add_right_comm]

theorem countCsLow_fillEvs (val : Nat) : ∀ n, countCsLow (fillEvs val n) = n := by
  intro n
  induction n with
  | zero => rfl
  | succ n ih => simp [fillEvs, countCsLow, ih]

theorem countCsLow_pollEvs (env : Env) :
    ∀ (start n : Nat), countCsLow (pollEvs env start n) = 0 := by
  intro start n
  induction n generalizing start with
  | zero => rfl
  | succ n ih => simp [pollEvs, countCsLow, ih]

theorem countCsLow_poll7Evs (env : Env) :
    ∀ (start n : Nat), countCsLow (poll7Evs env start n) = n := by
  intro start n
  induction n generalizing start with
  | zero => rfl
  | succ n ih =>
    simp [poll7Evs, countCsLow, countCsLow_append, cmdEvs, ih]

theorem mem_fillEvs {e : Ev} {val : Nat} :
    ∀ {n : Nat}, e ∈ fillEvs val n →
      e = Ev.csLow ∨ e = Ev.spi [val] ∨ e = Ev.csHigh := by
  intro n
  induction n with
  | zero => intro h; simp [fillEvs] at h
  | succ n ih =>
    intro h
    simp only [fillEvs, List.mem_cons] at h
    rcases h with rfl | rfl | rfl | h
    · exact Or.inl rfl
    · exact Or.inr (Or.inl rfl)
    · exact Or.inr (Or.inr rfl)
    · exact ih h

theorem spi_mem_fillEvs (val : Nat) {n : Nat} (h : 0 < n) :
    Ev.spi [val] ∈ fillEvs val n := by
  match n, h with
  | n + 1, _ => simp [fillEvs]

theorem dcAfter_append (xs : List Ev) : ∀ (b : Bool) (ys : List Ev),
    dcAfter b (xs ++ ys) = dcAfter (dcAfter b xs) ys := by
  induction xs with
  | nil => intro b ys; simp [dcAfter]
  | cons x xs ih =>
    intro b ys
    cases x <;> simp only [List.cons_append, dcAfter, List.append_eq, ih]

theorem countCsLow_cmdEvs (c : Nat) : countCsLow (cmdEvs c) = 1 :=
  Eq.trans rfl rfl

theorem countCsLow_dataEvs1 (b : Nat) : countCsLow (dataEvs1 b) = 1 :=
  Eq.trans rfl rfl

theorem countCsLow_resEvs (a w h : Nat) : countCsLow (resEvs a w h) = 5 := by
  simp [resEvs, countCsLow_append, countCsLow_cmdEvs, countCsLow_dataEvs1]

theorem countCsLow_nil : countCsLow [] = 0 := Eq.trans rfl rfl

theorem countCsLow_dcHigh_cons (es : List Ev) :
    countCsLow (Ev.dcHigh :: es) = countCsLow es := Eq.trans rfl rfl

theorem countCsLow_map_spi (cs : List (List Nat)) :
    countCsLow (cs.map Ev.spi) = 0 := by
  induction cs with
  | nil => rfl
  | cons c cs ih => simp [countCsLow, ih]

theorem bind_pure_run {α : Type} (m : M Unit) (x : α) (env : Env) (s : St) :
    (m >>= fun _ => pure x) env s =
      (R.mapVal (fun _ => x) (m env s).1, (m env s).2) := by
  rcases h : m env s with ⟨r, s1⟩
  cases r with
  | ok a => rw [bind_ok h]; simp [pure_run, R.mapVal]
  | err e => rw [bind_err h]; simp [R.mapVal]
  | unimpl => rw [bind_unimpl h]; simp [R.mapVal]
  | diverge => rw [bind_diverge h]; simp [R.mapVal]

theorem sleep5_run_tr {env : Env} (hok : ∀ n, env.ok n = true) (c : OctColor)
    (s : St) :
    Epd5in65f.sleep c env s =
      (R.ok c, ⟨s.trace ++ cwdEvs Cmd5.deepSleep.address [0xA5], s.k + 8⟩) := by
  rw [Epd5in65f.sleep, bind_ok (cwd5_run hok _ (by simp) (by simp) _)]
  rfl

theorem wake5_run_tr {env : Env} (hok : ∀ n, env.ok n = true) (c : OctColor)
    (s : St) :
    Epd5in65f.wake_up c env s =
      (R.ok c, ⟨s.trace ++ init5Evs, s.k + 107⟩) := by
  rw [Epd5in65f.wake_up, bind_ok (init5_run hok s)]
  rfl

theorem new5_run_tr {env : Env} (hok : ∀ n, env.ok n = true) (s : St) :
    Epd5in65f.new env s =
      (R.ok Epd5in65f.DEFAULT_BACKGROUND_COLOR,
        ⟨s.trace ++ init5Evs, s.k + 107⟩) := by
  rw [Epd5in65f.new, bind_ok (init5_run hok s)]
  rfl

theorem cycle5_run {env : Env} (hok : ∀ n, env.ok n = true) (c : OctColor)
    (s : St) :
    (Epd5in65f.sleep c >>= Epd5in65f.wake_up) env s =
      (R.ok c, ⟨s.trace ++ cwdEvs Cmd5.deepSleep.address [0xA5] ++ init5Evs,
        s.k + 115⟩) := by
  rw [bind_ok (sleep5_run_tr hok c s)]
  refine (wake5_run_tr hok c _).trans ?_
  simp [St.mk.injEq, List.append_assoc]
  try omega

theorem sleep7_idle_run {env : Env} (hok : ∀ n, env.ok n = true)
    (hbusy : ∀ n, env.busy n = true) (hfuel : 0 < env.fuel) (c : Color)
    (s : St) :
    Epd7in5.sleep c env s =
      (R.ok c, ⟨s.trace ++ sleep7IdleEvs, s.k + 14⟩) := by
  have hstop : ∀ k : Nat, stops7 env k 0 :=
    fun k => ⟨fun i hi => absurd hi (by omega), hbusy _⟩
  rw [Epd7in5.sleep, bind_ok (wait7_run hok (hstop _) hfuel),
    bind_ok (command7_run hok _ _),
    bind_ok (wait7_run hok (hstop _) hfuel),
    bind_ok (cwd7_run hok _ (by simp) (by simp) _)]
  refine (pure_run c env _).trans ?_
  simp [St.mk.injEq, sleep7IdleEvs, poll7Evs, hbusy, List.append_assoc]
  try omega

theorem init7_idle_run {env : Env} (hok : ∀ n, env.ok n = true)
    (hbusy : ∀ n, env.busy n = true) (hfuel : 0 < env.fuel) (s : St) :
    Epd7in5.init env s = (R.ok (), ⟨s.trace ++ init7IdleEvs, s.k + 76⟩) := by
  have hstop : ∀ k : Nat, stops7 env k 0 :=
    fun k => ⟨fun i hi => absurd hi (by omega), hbusy _⟩
  rw [Epd7in5.init, bind_ok (reset_run hok 2 s),
    bind_ok (cwd7_run hok _ (by simp) (by simp) _),
    bind_ok (cwd7_run hok _ (by simp) (by simp) _),
    bind_ok (command7_run hok _ _),
    bind_ok (wait7_run hok (hstop _) hfuel),
    bind_ok (cwd7_run hok _ (by simp) (by simp) _),
    bind_ok (cwd7_run hok _ (by simp) (by simp) _),
    bind_ok (cwd7_run hok _ (by simp) (by simp) _),
    bind_ok (cwd7_run hok _ (by simp) (by simp) _),
    bind_ok (cwd7_run hok _ (by simp) (by simp) _),
    bind_ok (cwd7_run hok _ (by simp) (by simp) _)]
  refine (wait7_run hok (hstop _) hfuel).trans ?_
  simp [St.mk.injEq, init7IdleEvs, poll7Evs, hbusy, List.append_assoc]
  try omega

theorem wake7_idle_run {env : Env} (hok : ∀ n, env.ok n = true)
    (hbusy : ∀ n, env.busy n = true) (hfuel : 0 < env.fuel) (c : Color)
    (s : St) :
    Epd7in5.wake_up c env s =
      (R.ok c, ⟨s.trace ++ init7IdleEvs, s.k + 76⟩) := by
  rw [Epd7in5.wake_up, bind_ok (init7_idle_run hok hbusy hfuel s)]
  rfl

theorem cycle7_idle_run {env : Env} (hok : ∀ n, env.ok n = true)
    (hbusy : ∀ n, env.busy n = true) (hfuel : 0 < env.fuel) (c : Color)
    (s : St) :
    (Epd7in5.sleep c >>= Epd7in5.wake_up) env s =
      (R.ok c, ⟨s.trace ++ sleep7IdleEvs ++ init7IdleEvs, s.k + 90⟩) := by
  rw [bind_ok (sleep7_idle_run hok hbusy hfuel c s)]
  refine (wake7_idle_run hok hbusy hfuel c _).trans ?_
  simp [St.mk.injEq, List.append_assoc]
  try omega

/-! ## The claims -/

/-- C1 (amended): for every byte sequence handed to the transport's
`data(bytes)`, the data/command line is set to data before chip-select is
asserted, the whole transfer sits inside a single chip-select
assert/deassert pair, and the SPI payloads concatenate to exactly the input
bytes in order; on a Linux host the payload is split into consecutive
nonempty chunks of at most 4096 bytes each, while on other hosts — where the
source's `cfg!(target_os = "linux")` chunking does not apply — it goes out
as one unchunked transfer. -/
theorem C1_data_chunked_write (env : Env) (s : St) (d : List Nat)
    (hok : ∀ n, env.ok n = true) :
    DisplayInterface.data d env s =
      (R.ok (), ⟨s.trace ++ Ev.dcHigh :: Ev.csLow ::
        ((spiChunks env.linux d).map Ev.spi ++ [Ev.csHigh]),
        s.k + (spiChunks env.linux d).length + 3⟩) ∧
    (spiChunks env.linux d).flatten = d ∧
    (env.linux = true →
      ∀ c ∈ spiChunks env.linux d, c.length ≤ 4096 ∧ c ≠ []) ∧
    (env.linux = false → spiChunks env.linux d = [d]) := by
  refine ⟨data_run hok d s, spiChunks_join env.linux d, ?_, ?_⟩
  · intro hl c hc
    rw [hl] at hc
    rw [show spiChunks true d = chunksOf 4095 d from rfl] at hc
    exact chunksOf_mem 4095 d c hc
  · intro hl
    rw [hl]
    rfl

/-- C1 counterexample: the claim's unconditional 4096-byte chunk ceiling
fails on a non-Linux host — a 4097-byte payload is written as one single
SPI transfer of 4097 bytes. -/
theorem C1_counterexample :
    (DisplayInterface.data bigPayload envNL St0).2.trace =
      [Ev.dcHigh, Ev.csLow, Ev.spi bigPayload, Ev.csHigh] ∧
    bigPayload.length = 4097 ∧ ¬(4097 ≤ 4096) := by
  exact ⟨rfl, by rw [bigPayload, List.length_replicate], by omega⟩

/-- C1 witness: a faultless Linux-host run on a concrete payload. -/
theorem C1_witness :
    (DisplayInterface.data [1, 2, 3] envHigh St0).2.trace =
      [Ev.dcHigh, Ev.csLow, Ev.spi [1, 2, 3], Ev.csHigh] := by
  have h := C1_data_chunked_write envHigh St0 [1, 2, 3] fun _ => rfl
  rw [h.1]
  rfl

/-- C2: the transport's `is_busy(busy_is_low)` is true exactly when
(busy_is_low and the busy line reads low) or (not busy_is_low and it reads
high); both illustrated models fix low-active polarity, so driver-level
`is_busy` — also right after `new()` — is true exactly when the line reads
low. -/
theorem C2_is_busy_polarity (env : Env) (s : St) (busyLow : Bool)
    (hok : ∀ n, env.ok n = true) :
    (DisplayInterface.is_busy busyLow env s).1 =
      R.ok (busyRead env busyLow s.k) ∧
    (busyRead env busyLow s.k = true ↔
      ((busyLow = true ∧ env.busy s.k = false) ∨
        (busyLow = false ∧ env.busy s.k = true))) ∧
    Epd5in65f.is_busy = DisplayInterface.is_busy true ∧
    Epd7in5.is_busy = DisplayInterface.is_busy true ∧
    (Epd5in65f.is_busy env (Epd5in65f.new env St0).2).1 =
      R.ok (busyRead env true ((Epd5in65f.new env St0).2).k) ∧
    (busyRead env true ((Epd5in65f.new env St0).2).k = true ↔
      env.busy ((Epd5in65f.new env St0).2).k = false) := by
  refine ⟨by rw [is_busy_run hok busyLow s], ?_, rfl, rfl, ?_, ?_⟩
  · cases busyLow <;> cases h : env.busy s.k <;> simp [busyRead, h]
  · rw [show Epd5in65f.is_busy = DisplayInterface.is_busy true from rfl,
      is_busy_run hok true ((Epd5in65f.new env St0).2)]
  · cases h : env.busy ((Epd5in65f.new env St0).2).k <;> simp [busyRead, h]

/-- C2 witness: on a concrete faultless host whose busy line reads high, the
transport's low-active query reports not-busy. -/
theorem C2_witness : (DisplayInterface.is_busy true envHigh St0).1 =
    R.ok false := by
  have h := C2_is_busy_polarity envHigh St0 true fun _ => rfl
  rw [h.1]
  rfl

/-- C6: both models' `update_partial_frame` and `set_lut` stop with the
`unimplemented!()` panic — modelled as the distinguished `R.unimpl` outcome,
which is not a success — before any bus or pin activity: the state is
returned untouched. -/
theorem C6_unsupported_ops (env : Env) (s : St) (buf : List Nat)
    (x y w h : Nat) (rl : Option RefreshLut) :
    Epd5in65f.update_partial_frame buf x y w h env s = (R.unimpl, s) ∧
    Epd7in5.update_partial_frame buf x y w h env s = (R.unimpl, s) ∧
    Epd5in65f.set_lut rl env s = (R.unimpl, s) ∧
    Epd7in5.set_lut rl env s = (R.unimpl, s) ∧
    (R.unimpl : R Unit) ≠ R.ok () :=
  ⟨rfl, rfl, rfl, rfl, by simp⟩

/-- C7 (amended): Epd5in65f's update_and_display_frame is exactly
update_frame sequenced with display_frame — on an update fault the composite
returns that fault with the state where update left it, and on success it
continues as display_frame from update's final state.  Epd7in5's
update_and_display_frame is update_frame followed directly by the refresh
opcode, omitting display_frame's leading not-busy wait. -/
theorem C7_update_and_display (env : Env) (s : St) (b : List Nat) :
    Epd5in65f.update_and_display_frame b env s =
      (Epd5in65f.update_frame b >>= fun _ => Epd5in65f.display_frame) env s ∧
    (∀ e s', Epd5in65f.update_frame b env s = (R.err e, s') →
      Epd5in65f.update_and_display_frame b env s = (R.err e, s')) ∧
    (∀ s1, Epd5in65f.update_frame b env s = (R.ok (), s1) →
      Epd5in65f.update_and_display_frame b env s =
        Epd5in65f.display_frame env s1) ∧
    Epd7in5.update_and_display_frame b env s =
      (Epd7in5.update_frame b >>= fun _ =>
        Epd7in5.command Cmd7.displayRefresh) env s ∧
    (∀ e s', Epd7in5.update_frame b env s = (R.err e, s') →
      Epd7in5.update_and_display_frame b env s = (R.err e, s')) := by
  refine ⟨rfl, fun e s' h => ?_, fun s1 h => ?_, rfl, fun e s' h => ?_⟩
  · show (Epd5in65f.update_frame b >>= fun _ => Epd5in65f.display_frame)
      env s = _
    rw [bind_err h]
  · show (Epd5in65f.update_frame b >>= fun _ => Epd5in65f.display_frame)
      env s = _
    exact bind_ok h
  · show (Epd7in5.update_frame b >>= fun _ =>
      Epd7in5.command Cmd7.displayRefresh) env s = _
    rw [bind_err h]

set_option maxHeartbeats 2000000 in
/-- C7 counterexample: for Epd7in5 the composite differs observably from
update_frame followed by display_frame — the true composition samples the
busy line once more (display_frame's leading wait) before the refresh. -/
theorem C7_counterexample :
    Epd7in5.update_and_display_frame [0] envHigh St0 ≠
      (Epd7in5.update_frame [0] >>= fun _ => Epd7in5.display_frame)
        envHigh St0 := by
  decide

/-- C8 (amended): wake_up re-runs exactly the init sequence — the same final
hardware state and fault behavior as new — but keeps the caller's stored
background color instead of recording the default; new records the default
background color over init. -/
theorem C8_wake_up_reinit (env : Env) (s : St) (c : OctColor) (c7 : Color) :
    Epd5in65f.wake_up c env s =
      (R.mapVal (fun _ => c) (Epd5in65f.new env s).1,
        (Epd5in65f.new env s).2) ∧
    Epd5in65f.new env s =
      (R.mapVal (fun _ => Epd5in65f.DEFAULT_BACKGROUND_COLOR)
        (Epd5in65f.init env s).1, (Epd5in65f.init env s).2) ∧
    Epd7in5.wake_up c7 env s =
      (R.mapVal (fun _ => c7) (Epd7in5.new env s).1, (Epd7in5.new env s).2) ∧
    Epd7in5.new env s =
      (R.mapVal (fun _ => Epd7in5.DEFAULT_BACKGROUND_COLOR)
        (Epd7in5.init env s).1, (Epd7in5.init env s).2) :=
  ⟨bind_pure_mapVal Epd5in65f.init c Epd5in65f.DEFAULT_BACKGROUND_COLOR env s,
    bind_pure_run Epd5in65f.init Epd5in65f.DEFAULT_BACKGROUND_COLOR env s,
    bind_pure_mapVal Epd7in5.init c7 Epd7in5.DEFAULT_BACKGROUND_COLOR env s,
    bind_pure_run Epd7in5.init Epd7in5.DEFAULT_BACKGROUND_COLOR env s⟩

/-- C8 counterexample: store black, wake_up — the driver's color is black,
while a freshly constructed driver records the default white; so a woken
driver is not in the same externally observable state as a fresh one. -/
theorem C8_counterexample :
    (Epd5in65f.wake_up
      (Epd5in65f.set_background_color Epd5in65f.DEFAULT_BACKGROUND_COLOR
        OctColor.black) envHigh St0).1 = R.ok OctColor.black ∧
    (Epd5in65f.new envHigh St0).1 =
      R.ok Epd5in65f.DEFAULT_BACKGROUND_COLOR ∧
    OctColor.black ≠ Epd5in65f.DEFAULT_BACKGROUND_COLOR := by
  have hk : ∀ n, envHigh.ok n = true := fun _ => rfl
  refine ⟨?_, ?_, by decide⟩
  · rw [show Epd5in65f.set_background_color Epd5in65f.DEFAULT_BACKGROUND_COLOR
        OctColor.black = OctColor.black from rfl,
      wake5_run_tr hk OctColor.black St0]
  · rw [new5_run_tr hk St0]

/-- C3: on the 600×448 model, `display_frame` emits exactly the opcodes
power-on, display-refresh, power-off — each preceded by a not-busy wait in
the model's low-active polarity (`stopsAt _ true`: poll while the line reads
low, exit when it reads high) — and after power-off waits for not-busy in
the opposite, high-active sense (`stopsAt _ false`); the run's opcode stream
is exactly those three opcodes and nothing else. -/
theorem C3_display_frame_sequence (env : Env) (s : St) (n1 n2 n3 n4 : Nat)
    (hok : ∀ n, env.ok n = true)
    (h1 : stopsAt env true s.k n1) (f1 : n1 < env.fuel)
    (h2 : stopsAt env true (s.k + (n1 + 1) + 4) n2) (f2 : n2 < env.fuel)
    (h3 : stopsAt env true (s.k + (n1 + 1) + 4 + (n2 + 1) + 4) n3)
    (f3 : n3 < env.fuel)
    (h4 : stopsAt env false (s.k + (n1 + 1) + 4 + (n2 + 1) + 4 + (n3 + 1) + 4) n4)
    (f4 : n4 < env.fuel) :
    Epd5in65f.display_frame env s =
      (R.ok (), ⟨s.trace ++ pollEvs env s.k (n1 + 1) ++
        cmdEvs Cmd5.powerOn.address ++
        pollEvs env (s.k + (n1 + 1) + 4) (n2 + 1) ++
        cmdEvs Cmd5.displayRefresh.address ++
        pollEvs env (s.k + (n1 + 1) + 4 + (n2 + 1) + 4) (n3 + 1) ++
        cmdEvs Cmd5.powerOff.address ++
        pollEvs env (s.k + (n1 + 1) + 4 + (n2 + 1) + 4 + (n3 + 1) + 4) (n4 + 1),
        s.k + n1 + n2 + n3 + n4 + 16⟩) ∧
    opcodesOf (pollEvs env s.k (n1 + 1) ++ cmdEvs Cmd5.powerOn.address ++
      pollEvs env (s.k + (n1 + 1) + 4) (n2 + 1) ++
      cmdEvs Cmd5.displayRefresh.address ++
      pollEvs env (s.k + (n1 + 1) + 4 + (n2 + 1) + 4) (n3 + 1) ++
      cmdEvs Cmd5.powerOff.address ++
      pollEvs env (s.k + (n1 + 1) + 4 + (n2 + 1) + 4 + (n3 + 1) + 4) (n4 + 1)) =
      [Cmd5.powerOn.address, Cmd5.displayRefresh.address,
        Cmd5.powerOff.address] ∧
    Epd5in65f.IS_BUSY_LOW = true := by
  refine ⟨display5_run hok h1 f1 h2 f2 h3 f3 h4 f4, ?_, rfl⟩
  simp [opcodesOf, opcodesGo_append, opcodesGo_pollEvs, dcAfter_pollEvs,
    opcodesGo_cmdEvs, dcAfter_cmdEvs, dcAfter_append]

/-- C3 witness: a faultless concrete run in which every wait exits at its
first sample returns success. -/
theorem C3_witness : (Epd5in65f.display_frame envD5 St0).1 = R.ok () := by
  have h := C3_display_frame_sequence envD5 St0 0 0 0 0 (fun _ => rfl)
    (by decide) (by decide) (by decide) (by decide) (by decide) (by decide)
    (by decide) (by decide)
  rw [h.1]

/-- C4 (amended): every transport primitive and every Epd7in5 lifecycle
operation is fail-fast — `OkSound`: a normal return means every attempted
hardware operation succeeded (no fault swallowed); `FaultStops`: a fault
return is the first failing hardware operation and the run stops right
there, with no bus or pin activity after it.  Epd5in65f's operations without
busy polling (init, new, wake_up, sleep, send_resolution, is_busy) are
fail-fast as well.  Its three busy-polling operations (update_frame,
display_frame, clear_frame) are, definitionally, interleavings of busy waits
with command/data segments, and every such segment — each command, each
cmd_with_data, the fill, and update_frame's whole post-wait tail — is
fail-fast, so a fault in their command and data traffic propagates
immediately; the busy waits themselves never report a fault: a fault inside
the underlying poll is swallowed into a normal return (see the
counterexample for the resulting OkSound failure of display_frame). -/
theorem C4_fail_fast (c v dur reps : Nat) (d buf : List Nat) (bl : Bool)
    (col : Color) (oc : OctColor) (c5 : Cmd5) :
    FailFast (DisplayInterface.write d) ∧
    FailFast (DisplayInterface.cmd c) ∧
    FailFast (DisplayInterface.data d) ∧
    FailFast (DisplayInterface.cmd_with_data c d) ∧
    FailFast (DisplayInterface.data_x_times v reps) ∧
    FailFast (DisplayInterface.is_busy bl) ∧
    FailFast (DisplayInterface.wait_until_idle bl) ∧
    FailFast (DisplayInterface.reset dur) ∧
    FailFast Epd7in5.init ∧ FailFast Epd7in5.new ∧
    FailFast (Epd7in5.wake_up col) ∧ FailFast (Epd7in5.sleep col) ∧
    FailFast (Epd7in5.update_frame buf) ∧ FailFast Epd7in5.display_frame ∧
    FailFast (Epd7in5.update_and_display_frame buf) ∧
    FailFast (Epd7in5.clear_frame col) ∧ FailFast Epd7in5.is_busy ∧
    FailFast Epd5in65f.init ∧ FailFast Epd5in65f.new ∧
    FailFast (Epd5in65f.wake_up oc) ∧ FailFast (Epd5in65f.sleep oc) ∧
    FailFast Epd5in65f.send_resolution ∧ FailFast Epd5in65f.is_busy ∧
    Epd5in65f.update_frame buf =
      (Epd5in65f.wait_busy_high >>= fun _ =>
        Epd5in65f.send_resolution >>= fun _ =>
        Epd5in65f.cmd_with_data Cmd5.dataStartTransmission1 buf) ∧
    Epd5in65f.display_frame =
      (Epd5in65f.wait_busy_high >>= fun _ =>
        Epd5in65f.command Cmd5.powerOn >>= fun _ =>
        Epd5in65f.wait_busy_high >>= fun _ =>
        Epd5in65f.command Cmd5.displayRefresh >>= fun _ =>
        Epd5in65f.wait_busy_high >>= fun _ =>
        Epd5in65f.command Cmd5.powerOff >>= fun _ =>
        Epd5in65f.wait_busy_low) ∧
    Epd5in65f.clear_frame oc =
      (Epd5in65f.wait_busy_high >>= fun _ =>
        Epd5in65f.send_resolution >>= fun _ =>
        Epd5in65f.command Cmd5.dataStartTransmission1 >>= fun _ =>
        DisplayInterface.data_x_times (OctColor.colors_byte oc oc)
          (Epd5in65f.WIDTH * Epd5in65f.HEIGHT / 2) >>= fun _ =>
        Epd5in65f.display_frame) ∧
    FailFast (Epd5in65f.command c5) ∧
    FailFast (Epd5in65f.cmd_with_data c5 d) ∧
    FailFast (Epd5in65f.send_resolution >>= fun _ =>
      Epd5in65f.cmd_with_data Cmd5.dataStartTransmission1 buf) ∧
    (∀ env s s' fl, Epd5in65f.wait_busy_high env s ≠ (R.err fl, s')) ∧
    (∀ env s s' fl, Epd5in65f.wait_busy_low env s ≠ (R.err fl, s')) ∧
    (∀ env s s' fl,
      DisplayInterface.wait_until_idle true env s = (R.err fl, s') →
        Epd5in65f.wait_busy_high env s = (R.ok (), s')) ∧
    (∀ env s s' fl,
      DisplayInterface.wait_until_idle false env s = (R.err fl, s') →
        Epd5in65f.wait_busy_low env s = (R.ok (), s')) :=
  ⟨failFast_write d, failFast_cmd c, failFast_data d, failFast_cwd c d,
    failFast_data_x_times v reps, failFast_is_busy bl, failFast_wait bl,
    failFast_reset dur, failFast_init7, failFast_new7, failFast_wake_up7 col,
    failFast_sleep7 col, failFast_update_frame7 buf, failFast_display_frame7,
    failFast_uadf7 buf, failFast_clear_frame7 col, failFast_is_busy7,
    failFast_init5, failFast_new5, failFast_wake_up5 oc, failFast_sleep5 oc,
    failFast_send_resolution5, failFast_is_busy5,
    rfl, rfl, rfl,
    failFast_command5 c5, failFast_cwd5 c5 d, failFast_update_seg5 buf,
    fun env s s' fl => tryIgnore_no_err _ env s s' fl,
    fun env s s' fl => tryIgnore_no_err _ env s s' fl,
    fun _ _ _ _ h => tryIgnore_of_err h,
    fun _ _ _ _ h => tryIgnore_of_err h⟩

set_option maxHeartbeats 2000000 in
/-- C4 counterexample: Epd5in65f.display_frame swallows faults.  With a
fault injected at its very first hardware operation — the busy sample of
`wait_busy_high` — the run still returns success and goes on to perform
fifteen more hardware operations (including the SPI command writes), so the
first fault is neither propagated nor does activity stop. -/
theorem C4_counterexample : ¬ OkSound Epd5in65f.display_frame := by
  intro hOS
  have h1 : (Epd5in65f.display_frame envF5 St0).1 = R.ok () := by decide
  have h2 : (Epd5in65f.display_frame envF5 St0).2.k = 16 := by decide
  have hpair : Epd5in65f.display_frame envF5 St0 =
      (R.ok (), (Epd5in65f.display_frame envF5 St0).2) := by
    rw [← h1]
  obtain ⟨-, hmid, -, -⟩ := hOS envF5 St0 () _ hpair
  have hc := hmid 0 le_rfl (by rw [h2]; omega)
  exact absurd hc (by decide)

/-- C5 (amended): Epd5in65f.clear_frame waits for not-busy, sends the
resolution registers, streams the solid-fill byte packed from the stored
background color (two pixels per byte) exactly 600*448/2 = 134400 times
under DataStartTransmission1, then performs the full display_frame sequence;
Epd7in5.clear_frame waits, sends resolution, then streams the constant fill
byte 0x00 — the stored background color is ignored, the run being the same
function for every color — exactly 800*480/8 = 48000 times under each of its
two transmission opcodes, and ends with the bare refresh opcode instead of
display_frame's wait-then-refresh. -/
theorem C5_clear_frame (env env2 : Env) (s s2 : St) (c : OctColor)
    (c7 c7' : Color) (n0 n1 n2 n3 n4 m0 : Nat)
    (hok : ∀ n, env.ok n = true)
    (h0 : stopsAt env true s.k n0) (f0 : n0 < env.fuel)
    (h1 : stopsAt env true (s.k + n0 + 403226) n1) (f1 : n1 < env.fuel)
    (h2 : stopsAt env true (s.k + n0 + n1 + 403231) n2) (f2 : n2 < env.fuel)
    (h3 : stopsAt env true (s.k + n0 + n1 + n2 + 403236) n3) (f3 : n3 < env.fuel)
    (h4 : stopsAt env false (s.k + n0 + n1 + n2 + n3 + 403241) n4)
    (f4 : n4 < env.fuel)
    (hok2 : ∀ n, env2.ok n = true)
    (g0 : stops7 env2 s2.k m0) (gf0 : m0 < env2.fuel) :
    Epd5in65f.clear_frame c env s =
      (R.ok (), ⟨s.trace ++ pollEvs env s.k (n0 + 1) ++
        resEvs Cmd5.tconResolution.address Epd5in65f.WIDTH Epd5in65f.HEIGHT ++
        cmdEvs Cmd5.dataStartTransmission1.address ++
        Ev.dcHigh :: fillEvs (OctColor.colors_byte c c) 134400 ++
        pollEvs env (s.k + n0 + 403226) (n1 + 1) ++
        cmdEvs Cmd5.powerOn.address ++
        pollEvs env (s.k + n0 + n1 + 403231) (n2 + 1) ++
        cmdEvs Cmd5.displayRefresh.address ++
        pollEvs env (s.k + n0 + n1 + n2 + 403236) (n3 + 1) ++
        cmdEvs Cmd5.powerOff.address ++
        pollEvs env (s.k + n0 + n1 + n2 + n3 + 403241) (n4 + 1),
        s.k + n0 + n1 + n2 + n3 + n4 + 403242⟩) ∧
    Epd5in65f.WIDTH * Epd5in65f.HEIGHT / 2 = 134400 ∧
    Epd7in5.clear_frame c7 env2 s2 =
      (R.ok (), ⟨s2.trace ++ poll7Evs env2 s2.k m0 ++
        resEvs Cmd7.tconResolution.address Epd7in5.WIDTH Epd7in5.HEIGHT ++
        cmdEvs Cmd7.dataStartTransmission1.address ++
        Ev.dcHigh :: fillEvs 0x00 48000 ++
        cmdEvs Cmd7.dataStartTransmission2.address ++
        Ev.dcHigh :: fillEvs 0x00 48000 ++
        cmdEvs Cmd7.displayRefresh.address,
        s2.k + 6 * m0 + 288035⟩) ∧
    Epd7in5.WIDTH * Epd7in5.HEIGHT / 8 = 48000 ∧
    Epd7in5.clear_frame c7 = Epd7in5.clear_frame c7' :=
  ⟨clear5_run hok c h0 f0 h1 f1 h2 f2 h3 f3 h4 f4, rfl,
    clear7_run hok2 c7 g0 gf0, rfl, rfl⟩

/-- C5 counterexample: Epd7in5.clear_frame ignores the stored background
color — the same run for white as for black — and the bytes it streams are
the constant 0x00 fill, never the white solid-fill byte the pixel encoding
prescribes: no SPI transfer of the white fill byte appears anywhere in a
faultless run's trace, while 0x00 fill transfers do. -/
theorem C5_counterexample :
    Epd7in5.clear_frame Color.white = Epd7in5.clear_frame Color.black ∧
    Color.get_byte_value Color.white ≠ Color.get_byte_value Color.black ∧
    Ev.spi [Color.get_byte_value Color.white] ∉
      (Epd7in5.clear_frame Color.white envHigh St0).2.trace ∧
    Ev.spi [0x00] ∈ (Epd7in5.clear_frame Color.white envHigh St0).2.trace := by
  have hk : ∀ n, envHigh.ok n = true := fun _ => rfl
  have hrun := @clear7_run envHigh hk Color.white St0 0
    ⟨fun i hi => absurd hi (by omega), rfl⟩ (by decide)
  have hF : Ev.spi [Color.get_byte_value Color.white] ∉
      Ev.dcHigh :: fillEvs 0x00 48000 := by
    intro h
    rcases List.mem_cons.1 h with h | h
    · exact absurd h (by decide)
    · rcases mem_fillEvs h with h | h | h <;> exact absurd h (by decide)
  refine ⟨rfl, by decide, ?_, ?_⟩
  · rw [hrun]
    intro hmem
    rcases List.mem_append.1 hmem with hmem | h
    · rcases List.mem_append.1 hmem with hmem | h
      · rcases List.mem_append.1 hmem with hmem | h
        · rcases List.mem_append.1 hmem with hmem | h
          · rcases List.mem_append.1 hmem with hmem | h
            · rcases List.mem_append.1 hmem with hmem | h
              · rcases List.mem_append.1 hmem with hmem | h
                · exact absurd hmem (by decide)
                · exact absurd h (by decide)
              · exact absurd h (by decide)
            · exact absurd h (by decide)
          · exact hF h
        · exact absurd h (by decide)
      · exact hF h
    · exact absurd h (by decide)
  · rw [hrun]
    refine List.mem_append.2 (Or.inl ?_)
    refine List.mem_append.2 (Or.inl ?_)
    refine List.mem_append.2 (Or.inl ?_)
    refine List.mem_append.2 (Or.inr ?_)
    exact List.mem_cons_of_mem _ (spi_mem_fillEvs 0x00 (by omega))

/-- C5 witness: concrete faultless runs of both clears return success. -/
theorem C5_witness :
    (Epd5in65f.clear_frame OctColor.white envC5 St0).1 = R.ok () ∧
    (Epd7in5.clear_frame Color.white envHigh St0).1 = R.ok () := by
  have h := C5_clear_frame envC5 envHigh St0 St0 OctColor.white Color.white
    Color.black 0 0 0 0 0 0 (fun _ => rfl) (by decide) (by decide) (by decide)
    (by decide) (by decide) (by decide) (by decide) (by decide) (by decide)
    (by decide) (fun _ => rfl) (by decide) (by decide)
  exact ⟨by rw [h.1], by rw [h.2.2.1]⟩

/-- C9: a sleep-then-wake cycle leaves the driver in the same externally
observable state after one cycle as after two: the stored background color
is the original color in both cases, and width/height are the fixed
per-model constants, for both models. -/
theorem C9_sleep_wake_idempotent (env env2 : Env) (c : OctColor) (c7 : Color)
    (x1 x2 : OctColor) (y1 y2 : Color)
    (hc1 : ((Epd5in65f.sleep c >>= Epd5in65f.wake_up) env St0).1 = R.ok x1)
    (hc2 : ((Epd5in65f.sleep x1 >>= Epd5in65f.wake_up) env
      ((Epd5in65f.sleep c >>= Epd5in65f.wake_up) env St0).2).1 = R.ok x2)
    (hd1 : ((Epd7in5.sleep c7 >>= Epd7in5.wake_up) env2 St0).1 = R.ok y1)
    (hd2 : ((Epd7in5.sleep y1 >>= Epd7in5.wake_up) env2
      ((Epd7in5.sleep c7 >>= Epd7in5.wake_up) env2 St0).2).1 = R.ok y2) :
    x1 = c ∧ x2 = c ∧ y1 = c7 ∧ y2 = c7 ∧
    Epd5in65f.width = 600 ∧ Epd5in65f.height = 448 ∧
    Epd7in5.width = 800 ∧ Epd7in5.height = 480 := by
  have pair : ∀ {α : Type} (p : R α × St) (x : α), p.1 = R.ok x →
      p = (R.ok x, p.2) := by
    intro α p x h
    rw [← h]
  have e1 := cycle5_val c (pair _ x1 hc1)
  have e2 := cycle5_val x1 (pair _ x2 hc2)
  have e3 := cycle7_val c7 (pair _ y1 hd1)
  have e4 := cycle7_val y1 (pair _ y2 hd2)
  exact ⟨e1, by rw [e2, e1], e3, by rw [e4, e3], rfl, rfl, rfl, rfl⟩

/-- C9 witness: concrete faultless always-idle cycles for both models. -/
theorem C9_witness :
    OctColor.white = OctColor.white ∧ OctColor.white = OctColor.white ∧
    Color.white = Color.white ∧ Color.white = Color.white ∧
    Epd5in65f.width = 600 ∧ Epd5in65f.height = 448 ∧
    Epd7in5.width = 800 ∧ Epd7in5.height = 480 := by
  have hok : ∀ n, envHigh.ok n = true := fun _ => rfl
  have hbusy : ∀ n, envHigh.busy n = true := fun _ => rfl
  refine C9_sleep_wake_idempotent envHigh envHigh OctColor.white Color.white
    OctColor.white OctColor.white Color.white Color.white ?_ ?_ ?_ ?_
  · rw [cycle5_run hok OctColor.white St0]
  · rw [cycle5_run hok OctColor.white _]
  · rw [cycle7_idle_run hok hbusy (by decide) Color.white St0]
  · rw [cycle7_idle_run hok hbusy (by decide) Color.white _]

/-- C10: `data_x_times(val, reps)` emits exactly `reps` separate one-byte
transfers, each framed by its own chip-select assert/deassert — `reps`
chip-select assertions — whereas `data(bytes)` frames its whole (possibly
chunked) payload in a single chip-select assertion; consequently the 5in65f
solid-fill clear puts 600*448/2 = 134400 fill frames on the bus (134409
assertions over the whole run, counting the command and resolution frames)
and the 7in5 clear 48000 per plane (m0 + 96008 over the whole run, with one
GetStatus frame per busy iteration). -/
theorem C10_fill_framing (env env2 env3 : Env) (s : St) (val reps : Nat)
    (d : List Nat) (c : OctColor) (c7 : Color) (n0 n1 n2 n3 n4 m0 : Nat)
    (hok : ∀ n, env.ok n = true)
    (hok2 : ∀ n, env2.ok n = true)
    (h0 : stopsAt env2 true St0.k n0) (f0 : n0 < env2.fuel)
    (h1 : stopsAt env2 true (St0.k + n0 + 403226) n1) (f1 : n1 < env2.fuel)
    (h2 : stopsAt env2 true (St0.k + n0 + n1 + 403231) n2) (f2 : n2 < env2.fuel)
    (h3 : stopsAt env2 true (St0.k + n0 + n1 + n2 + 403236) n3)
    (f3 : n3 < env2.fuel)
    (h4 : stopsAt env2 false (St0.k + n0 + n1 + n2 + n3 + 403241) n4)
    (f4 : n4 < env2.fuel)
    (hok3 : ∀ n, env3.ok n = true)
    (g0 : stops7 env3 St0.k m0) (gf0 : m0 < env3.fuel) :
    DisplayInterface.data_x_times val reps env s =
      (R.ok (), ⟨s.trace ++ Ev.dcHigh :: fillEvs val reps,
        s.k + 3 * reps + 1⟩) ∧
    countCsLow (fillEvs val reps) = reps ∧
    countCsLow (Ev.dcHigh :: Ev.csLow ::
      ((spiChunks env.linux d).map Ev.spi ++ [Ev.csHigh])) = 1 ∧
    countCsLow ((Epd5in65f.clear_frame c env2 St0).2.trace) = 134409 ∧
    countCsLow ((Epd7in5.clear_frame c7 env3 St0).2.trace) = m0 + 96008 := by
  refine ⟨data_x_times_run hok val reps s, countCsLow_fillEvs val reps,
    ?_, ?_, ?_⟩
  · simp [countCsLow, countCsLow_append, countCsLow_map_spi]
  · rw [clear5_run hok2 c h0 f0 h1 f1 h2 f2 h3 f3 h4 f4]
    simp [St0, countCsLow_append, countCsLow_pollEvs, countCsLow_resEvs,
      countCsLow_cmdEvs, countCsLow_fillEvs, countCsLow_dcHigh_cons,
      countCsLow_nil]
    try omega
  · rw [clear7_run hok3 c7 g0 gf0]
    simp [St0, countCsLow_append, countCsLow_poll7Evs, countCsLow_resEvs,
      countCsLow_cmdEvs, countCsLow_fillEvs, countCsLow_dcHigh_cons,
      countCsLow_nil]
    try omega

/-- C10 witness: concrete counts for a small fill and for a faultless 5in65f
clear run. -/
theorem C10_witness :
    countCsLow (fillEvs 0x5A 5) = 5 ∧
    countCsLow ((Epd5in65f.clear_frame OctColor.white envC5 St0).2.trace) =
      134409 := by
  have h := C10_fill_framing envHigh envC5 envHigh St0 0x5A 5 [1, 2]
    OctColor.white Color.white 0 0 0 0 0 0 (fun _ => rfl) (fun _ => rfl)
    (by decide) (by decide) (by decide) (by decide) (by decide) (by decide)
    (by decide) (by decide) (by decide) (by decide) (fun _ => rfl)
    (by decide) (by decide)
  exact ⟨h.2.1, h.2.2.2.1⟩

end EpdWaveshare
